import Mathlib

/-!
bigfin: storage-pool provisioning (`provider/storage.go`, `backend/cephapi/api.go`).

A shallow embedding of the Ceph provider's pool creation path.

* Go's `uint64`/`uint` are natural numbers reduced modulo `2 ^ 64` after every
  operation that can overflow; `int` is `Int`, converted with `uint64_of_int`.
* An integer division by zero and an out-of-range slice index are Go run-time
  panics; they are results of type `GoPanic`, never silently defined values.
* Everything outside the two source files (the datastore, the HTTP handler,
  the JSON codec, the `utils` helpers, the route table) is a field of `Env`.
* Observable effects (task status updates, backend calls, HTTP requests, the
  datastore insert) are recorded in order in the `log` of a `Run`.
-/

namespace Bigfin

/-! ## Go primitives -/

/-- Go run-time panics that the modelled code can raise. -/
inductive GoPanic where
  | divideByZero
  | indexOutOfRange
  deriving DecidableEq, Repr

deriving instance DecidableEq for Except

/-- A Go `error` value, identified by its message. -/
structure GoError where
  msg : String
  deriving DecidableEq, Repr

/-- The call `errors.New(msg)`. -/
def errors_New (msg : String) : GoError := ⟨msg⟩

/-- Wrap-around of `uint64` arithmetic. -/
def u64 (x : Nat) : Nat := x % 2 ^ 64

/-- The conversion `uint64(x)` of an `int`. -/
def uint64_of_int (x : Int) : Nat := (x % 2 ^ 64).toNat

/-- Unsigned integer division; a zero divisor panics. -/
def udiv (a b : Nat) : Except GoPanic Nat :=
  if b = 0 then .error .divideByZero else .ok (a / b)

/-- A Go `map[string]string`: its entries in iteration order, keys distinct. -/
structure GoMap where
  entries : List (String × String)
  nodup : (entries.map Prod.fst).Nodup

/-- The index expression `m[k]`, which is `""` for an absent key. -/
def GoMap.get (m : GoMap) (k : String) : String :=
  match m.entries.lookup k with
  | some v => v
  | none => ""

/-- The empty map. -/
def GoMap.empty : GoMap := ⟨[], List.nodup_nil⟩

/-! ### `strconv` -/

/-- Value of a decimal digit byte, if it is one. -/
def digitVal (c : Char) : Option Nat :=
  if 48 ≤ c.toNat ∧ c.toNat ≤ 57 then some (c.toNat - 48) else none

/-- The digit loop of `strconv.ParseUint` in base 10: `n` is the value so far
and `maxVal = 1<<bitSize - 1`. A non-digit is a syntax error with value 0; a
value that leaves the range is a range error with value `maxVal`. -/
def parseUintLoop (maxVal : Nat) : List Char → Nat → Nat × Option GoError
  | [], n => (n, none)
  | c :: cs, n =>
    match digitVal c with
    | none => (0, some ⟨"invalid syntax"⟩)
    | some d =>
      if n ≥ (2 ^ 64 - 1) / 10 + 1 then (maxVal, some ⟨"value out of range"⟩)
      else
        let n1 := n * 10 + d
        if n1 ≥ 2 ^ 64 ∨ n1 > maxVal then (maxVal, some ⟨"value out of range"⟩)
        else parseUintLoop maxVal cs n1

/-- The call `strconv.ParseUint(s, 10, bitSize)`: value and error. -/
def strconv_ParseUint (s : String) (bitSize : Nat) : Nat × Option GoError :=
  if s.toList = [] then (0, some ⟨"invalid syntax"⟩)
  else parseUintLoop (2 ^ bitSize - 1) s.toList 0

/-- The call `strconv.Atoi(s)` on a 64-bit platform (`ParseInt(s, 10, 0)`):
an optional sign, then `ParseUint` on the rest, then the signed range check. -/
def strconv_Atoi (s : String) : Int × Option GoError :=
  match s.toList with
  | [] => (0, some ⟨"invalid syntax"⟩)
  | c :: cs =>
    let neg := decide (c = '-')
    let rest := if c = '+' ∨ c = '-' then cs else c :: cs
    if rest = [] then (0, some ⟨"invalid syntax"⟩)
    else
      match parseUintLoop (2 ^ 64 - 1) rest 0 with
      | (_, some e) =>
        if e.msg = "value out of range" then
          (if neg then -(2 ^ 63 : Int) else 2 ^ 63 - 1, some e)
        else (0, some e)
      | (un, none) =>
        if neg = false ∧ un ≥ 2 ^ 63 then (2 ^ 63 - 1, some ⟨"value out of range"⟩)
        else if neg = true ∧ un > 2 ^ 63 then (-(2 ^ 63 : Int), some ⟨"value out of range"⟩)
        else (if neg then -(un : Int) else (un : Int), none)

/-! ## Data model (`skyring/models`, `bigfin/backend/cephapi/models`) -/

abbrev UUID := String

structure Cluster where
  ClusterId : UUID
  Name : String
  deriving DecidableEq, Repr

structure Node where
  NodeId : UUID
  Hostname : String
  ClusterId : UUID
  Options : GoMap

structure StorageLogicalUnit where
  SluId : UUID
  ClusterId : UUID
  StorageDeviceSize : Nat
  deriving DecidableEq, Repr

structure AddStorageRequest where
  Name : String
  Type_ : String
  Tags : List String
  Size : String
  Replicas : Int
  Profile : String
  SnapshotsEnabled : Bool
  QuotaEnabled : Bool
  QuotaParams : GoMap
  Options : GoMap

structure Storage where
  StorageId : UUID
  Name : String
  Type_ : String
  Tags : List String
  ClusterId : UUID
  Size : String
  Status : String
  Replicas : Int
  Profile : String
  SnapshotsEnabled : Bool
  QuotaEnabled : Bool
  QuotaParams : GoMap
  Options : GoMap

structure CephApiRoute where
  Name : String
  Method : String
  Pattern : String
  Version : Nat
  deriving DecidableEq, Repr

structure CephPoolRequest where
  Name : String
  Size : Int
  MinSize : Int
  QuotaMaxObjects : Int
  HashPsPool : Bool
  QuotaMaxBytes : Nat
  PgNum : Int
  PgpNum : Int
  CrashReplayInterval : Int
  deriving DecidableEq, Repr

structure CephAsyncRequest where
  RequestId : String
  deriving DecidableEq, Repr

structure CephRequestStatus where
  State : String
  deriving DecidableEq, Repr

/-- An `*http.Response`: the status code and what `ioutil.ReadAll(resp.Body)`
gives. -/
structure Response where
  StatusCode : Nat
  Body : Except GoError String

def STATUS_UP : String := "up"

def DEFAULT_PG_NUM : Nat := 128
def TARGET_PGS_PER_OSD : Nat := 200
def MAX_UTILIZATION_PCNT : Nat := 80

/-! ## Environment -/

/-- Everything the two source files call but do not define. -/
structure Env where
  /-- Query `Find({"clusterid": id}).One` on the clusters collection. -/
  clusterById : UUID → Except GoError Cluster
  /-- Query `Find({"name": name}).One` on the clusters collection. -/
  clusterByName : String → Except GoError Cluster
  /-- Query `Find({"clusterid": id}).All` on the nodes collection. -/
  nodesByCluster : UUID → Except GoError (List Node)
  /-- Query `Find({"nodeid": id}).One` on the nodes collection. -/
  nodeById : UUID → Except GoError Node
  /-- Query `Find({"clusterid": id, "type": CEPH_OSD}).All` on the logical
  units collection. -/
  osdsByCluster : UUID → Except GoError (List StorageLogicalUnit)
  /-- Result of `coll.Insert(storage)`: `none` is success. -/
  insertStorage : Storage → Option GoError
  /-- Result of `uuid.New()`. -/
  uuid_New : Except GoError UUID
  /-- Helper `utils.SizeFromStr`. -/
  SizeFromStr : String → Nat
  /-- Helper `utils.NextTwosPower`. -/
  NextTwosPower : Nat → Nat
  /-- The result of `utils.NextTwosPower` is a `uint`. -/
  NextTwosPower_uint : ∀ x, NextTwosPower x < 2 ^ 64
  /-- Helper `utils.RandomNum(min, max)`: the number drawn. -/
  RandomNum : Int → Int → Int
  /-- The route table `CEPH_API_ROUTES`, a missing key giving the zero route. -/
  CEPH_API_ROUTES : String → CephApiRoute
  CEPH_API_PORT : Nat
  CEPH_API_DEFAULT_PREFIX : String
  /-- Result of `json.Marshal(pool)`. -/
  marshalPool : CephPoolRequest → Except GoError String
  /-- Result of `json.Unmarshal` into a `CephAsyncRequest`. -/
  unmarshalAsync : String → Except GoError CephAsyncRequest
  /-- Result of `json.Unmarshal` into a `CephRequestStatus`. -/
  unmarshalStatus : String → Except GoError CephRequestStatus
  /-- Handler `handler.HttpPost(mon, url, contentType, body)`; the first
  argument is the sequence number of the request within one `CreatePool` call
  (0 is the submission, `k` the `k`-th status read), since the cluster's
  answer changes over time. -/
  HttpPost : Nat → String → String → String → String → Except GoError Response
  /-- Handler `handler.HttpGet(url)`, with the same sequence number. -/
  HttpGet : Nat → String → Except GoError Response

/-! ## Placement-group derivation (`provider/storage.go`) -/

/-- Go `avg_osd_size`: wrapping sum of the device sizes over the count. -/
def avg_osd_size (slus : List StorageLogicalUnit) : Except GoPanic Nat :=
  let totalOsdSize := slus.foldl (fun acc slu => u64 (acc + slu.StorageDeviceSize)) 0
  udiv totalOsdSize (u64 slus.length)

/-- The value the local `maxAllocSize` of `derive_pgnum` takes on an inventory
and a replica count (0 where one of the divisions leading to it has a zero
divisor). -/
def maxAllocSizeOf (slus : List StorageLogicalUnit) (replicaCount : Int) : Nat :=
  u64 (u64 (slus.foldl (fun acc slu => u64 (acc + slu.StorageDeviceSize)) 0 / u64 slus.length
      * u64 slus.length) / uint64_of_int replicaCount * MAX_UTILIZATION_PCNT) / 100

/-- The value the local `pgnum` of `derive_pgnum` takes before it is rounded,
on an inventory, a size string and a replica count (0 where a division has a
zero divisor). -/
def rawPgnumOf (w : Env) (slus : List StorageLogicalUnit) (size : String)
    (replicaCount : Int) : Nat :=
  u64 (u64 (TARGET_PGS_PER_OSD * u64 slus.length)
    * (u64 (w.SizeFromStr size) / maxAllocSizeOf slus replicaCount))
    / uint64_of_int replicaCount

/-- Go `derive_pgnum`. -/
def derive_pgnum (w : Env) (clusterId : UUID) (size : String) (replicaCount : Int) :
    Except GoPanic Nat :=
  match w.osdsByCluster clusterId with
  | .error _ => .ok DEFAULT_PG_NUM
  | .ok slus =>
    let osdsNum := slus.length
    if osdsNum ≤ 5 then .ok DEFAULT_PG_NUM
    else if osdsNum ≤ 10 then .ok 512
    else if osdsNum ≤ 50 then .ok 4096
    else do
      let avgOsdSize ← avg_osd_size slus
      let perReplica ← udiv (u64 (avgOsdSize * u64 slus.length)) (uint64_of_int replicaCount)
      let maxAllocSize := u64 (perReplica * MAX_UTILIZATION_PCNT) / 100
      let pcntData ← udiv (u64 (w.SizeFromStr size)) maxAllocSize
      let pgnum ← udiv (u64 (u64 (TARGET_PGS_PER_OSD * u64 slus.length) * pcntData))
        (uint64_of_int replicaCount)
      pure (w.NextTwosPower pgnum)

/-! ## Runs: effect log and outcome -/

/-- Effects a run performs, in order. -/
inductive Event where
  /-- Call `t.UpdateStatus(format, args...)`. -/
  | UpdateStatus (format : String) (args : List String)
  /-- Call `t.Done()`. -/
  | Done
  /-- Call `cephapi_backend.CreatePool(...)` made by `createPool`. -/
  | BackendCreatePool (name mon clusterName : String) (pgnum : Nat) (replicas : Int)
      (quotaMaxObjects : Int) (quotaMaxBytes : Nat)
  /-- Request sent through `handler.HttpPost`. -/
  | HttpPost (seq : Nat) (url : String) (body : String)
  /-- Request sent through `handler.HttpGet`. -/
  | HttpGet (seq : Nat) (url : String)
  /-- Call `time.Sleep(seconds * time.Second)`. -/
  | Sleep (seconds : Nat)
  /-- Call `coll.Insert(storage)` on the storage collection. -/
  | Insert (storage : Storage)

/-- How a run ends: it returns, it panics, or the allotted number of poll
iterations is used up with the loop still polling. -/
inductive Outcome (α : Type) where
  | ret (a : α)
  | panic (p : GoPanic)
  | polling
  deriving DecidableEq

/-- A run: the effects performed and how it ended. -/
structure Run (α : Type) where
  log : List Event
  out : Outcome α

/-- Return without effects. -/
def ret {α : Type} (a : α) : Run α := ⟨[], .ret a⟩

/-- Perform `e`, then continue as `k`. -/
def emit {α : Type} (e : Event) (k : Run α) : Run α := ⟨e :: k.log, k.out⟩

/-- Run `r`; if it returns, continue with `f` on its value. -/
def Run.bind {α β : Type} (r : Run α) (f : α → Run β) : Run β :=
  match r.out with
  | .ret a => ⟨r.log ++ (f a).log, (f a).out⟩
  | .panic p => ⟨r.log, .panic p⟩
  | .polling => ⟨r.log, .polling⟩

/-- A computation without effects that may panic. -/
def Run.ofExcept {α : Type} (x : Except GoPanic α) : Run α :=
  match x with
  | .ok a => ret a
  | .error p => ⟨[], .panic p⟩

def Event.isInsert : Event → Bool
  | .Insert _ => true
  | _ => false

def Event.isBackendCreatePool : Event → Bool
  | .BackendCreatePool .. => true
  | _ => false

def Event.isHttp : Event → Bool
  | .HttpPost .. => true
  | .HttpGet .. => true
  | _ => false

def Event.isSleep : Event → Bool
  | .Sleep _ => true
  | _ => false

def Event.isStatus : Event → Bool
  | .UpdateStatus .. => true
  | _ => false

def Event.isDone : Event → Bool
  | .Done => true
  | _ => false

/-- The PG count of a backend call event. -/
def Event.pgnum : Event → Option Nat
  | .BackendCreatePool _ _ _ pgnum _ _ _ => some pgnum
  | _ => none

/-- What the cluster answers to an HTTP request event. -/
def Env.answer (w : Env) (mon : String) : Event → Option (Except GoError Response)
  | .HttpPost seq url body => some (w.HttpPost seq mon url "application/json" body)
  | .HttpGet seq url => some (w.HttpGet seq url)
  | _ => none

/-- Sequence number of an HTTP request event. -/
def Event.seq : Event → Option Nat
  | .HttpPost seq _ _ => some seq
  | .HttpGet seq _ => some seq
  | _ => none

/-- Rendering of an error by the `%v` verb. -/
def fmtErr : Option GoError → String
  | some e => e.msg
  | none => "<nil>"

/-! ## Control-plane client (`backend/cephapi/api.go`) -/

/-- Character-level `strings.Replace(s, old, new, 1)`. -/
def replaceFirst (old new : List Char) : List Char → List Char
  | [] => if old = [] then new else []
  | c :: cs =>
    if old.isPrefixOf (c :: cs) then new ++ (c :: cs).drop old.length
    else c :: replaceFirst old new cs

/-- The call `strings.Replace(s, old, new, 1)`. -/
def strings_Replace (s old new : String) : String :=
  String.mk (replaceFirst old.toList new.toList s.toList)

/-- The conversion `int(x)` of a `uint`. -/
def int_of_uint (x : Nat) : Int :=
  if x % 2 ^ 64 < 2 ^ 63 then (x % 2 ^ 64 : Nat) else ((x % 2 ^ 64 : Nat) : Int) - 2 ^ 64

/-- Go `cluster_id`. -/
def cluster_id (w : Env) (clusterName : String) : Except GoError String :=
  match w.clusterByName clusterName with
  | .error err => .error err
  | .ok cluster => .ok cluster.ClusterId

/-- The URL `fmt.Sprintf("http://%s:%d/%s/v%d/%s", ...)`. -/
def route_url (w : Env) (route : CephApiRoute) (mon : String) : String :=
  "http://" ++ mon ++ ":" ++ toString w.CEPH_API_PORT ++ "/" ++ w.CEPH_API_DEFAULT_PREFIX
    ++ "/v" ++ toString route.Version ++ "/" ++ route.Pattern

/-- Go `route_request`; `seq` is the sequence number of the request. -/
def route_request (w : Env) (seq : Nat) (route : CephApiRoute) (mon : String) (body : String) :
    Run (Except GoError Response) :=
  if route.Method = "POST" then
    emit (.HttpPost seq (route_url w route mon) body)
      (ret (w.HttpPost seq mon (route_url w route mon) "application/json" body))
  else if route.Method = "GET" then
    emit (.HttpGet seq (route_url w route mon)) (ret (w.HttpGet seq (route_url w route mon)))
  else ret (.error (errors_New "Invalid method type"))

/-- The local `createPoolRoute` of `CephApi.CreatePool`: the `CreatePool`
route with the cluster id put into its pattern. -/
def createPoolRoute (w : Env) (cluster_id : String) : CephApiRoute :=
  { w.CEPH_API_ROUTES "CreatePool" with
    Pattern := strings_Replace (w.CEPH_API_ROUTES "CreatePool").Pattern
      "\x7bcluster-fsid\x7d" cluster_id }

/-- The local `route` of the status loop: the `GetRequestStatus` route with
the request id put into its pattern. -/
def statusRoute (w : Env) (RequestId : String) : CephApiRoute :=
  { w.CEPH_API_ROUTES "GetRequestStatus" with
    Pattern := strings_Replace (w.CEPH_API_ROUTES "GetRequestStatus").Pattern
      "\x7brequest-fsid\x7d" RequestId }

/-- The status loop of `CephApi.CreatePool`, run for at most `fuel` iterations;
`seq` numbers the status read of the next iteration. -/
def pollLoop (w : Env) (mon : String) (RequestId : String) :
    Nat → Nat → Run (Bool × Option GoError)
  | 0, _ => ⟨[], .polling⟩
  | fuel + 1, seq =>
    emit (.Sleep 2) <|
    (route_request w seq (statusRoute w RequestId) mon "").bind fun r =>
    match r with
    | .error _ => ret (false, some (errors_New "Error syncing request status from cluster"))
    | .ok resp =>
      match resp.Body with
      | .error err => ret (false, some (errors_New ("Error parsing response data: " ++ err.msg)))
      | .ok respBodyStr =>
        match w.unmarshalStatus respBodyStr with
        | .error err =>
          ret (false, some (errors_New ("Error parsing response data: " ++ err.msg)))
        | .ok reqStatus =>
          if reqStatus.State = "complete" then ret (true, none)
          else pollLoop w mon RequestId fuel (seq + 1)

/-- Go `CephApi.CreatePool`, its status loop bounded by `fuel` iterations. -/
def CephApi.CreatePool (w : Env) (fuel : Nat) (name mon clusterName : String) (pgnum : Nat)
    (replicas : Int) (quotaMaxObjects : Int) (quotaMaxBytes : Nat) :
    Run (Bool × Option GoError) :=
  match cluster_id w clusterName with
  | .error err => ret (false, some (errors_New ("Could not get id for cluster: " ++ err.msg)))
  | .ok cluster_id =>
    match w.marshalPool
      { Name := name, Size := replicas, MinSize := 1, QuotaMaxObjects := quotaMaxObjects,
        HashPsPool := false, QuotaMaxBytes := quotaMaxBytes, PgNum := int_of_uint pgnum,
        PgpNum := int_of_uint pgnum, CrashReplayInterval := 0 } with
    | .error err => ret (false, some (errors_New ("Error formaing request body: " ++ err.msg)))
    | .ok buf =>
      (route_request w 0 (createPoolRoute w cluster_id) mon buf).bind fun r =>
      match r with
      | .error err => ret (false, some (errors_New ("Failed to create pool: " ++ err.msg)))
      | .ok resp =>
        if resp.StatusCode ≠ 200 ∧ resp.StatusCode ≠ 202 then
          ret (false, some (errors_New "Failed to create pool: <nil>"))
        else
          match resp.Body with
          | .error err =>
            ret (false, some (errors_New ("Error parsing response data: " ++ err.msg)))
          | .ok respBodyStr =>
            match w.unmarshalAsync respBodyStr with
            | .error err =>
              ret (false, some (errors_New ("Error parsing response data: " ++ err.msg)))
            | .ok asyncReq => pollLoop w mon asyncReq.RequestId fuel 1

/-! ## Provisioner (`provider/storage.go`) -/

/-- The inner loop of the monitor filter: one append per entry of the node's
options that is `mon = "Y"`. -/
def appendIfMon (clusterNode : Node) (mons : List Node) : List Node :=
  clusterNode.Options.entries.foldl
    (fun mons kv => if kv.1 = "mon" ∧ kv.2 = "Y" then mons ++ [clusterNode] else mons) mons

/-- The monitor filter of `createPool`: the loop over `clusterNodes`. -/
def collectMons (clusterNodes : List Node) : List Node :=
  clusterNodes.foldl (fun mons clusterNode => appendIfMon clusterNode mons) []

/-- The slice index `mons[i].NodeId`, which panics outside the slice. -/
def nodeIdAt (mons : List Node) (i : Int) : Except GoPanic UUID :=
  if i < 0 then .error .indexOutOfRange
  else
    match mons.get? i.toNat with
    | some node => .ok node.NodeId
    | none => .error .indexOutOfRange

/-- The monitor choice of `createPool`. -/
def pickMon (w : Env) (mons : List Node) : Except GoPanic UUID :=
  if mons.length = 1 then nodeIdAt mons 0
  else nodeIdAt mons (w.RandomNum 0 ((mons.length : Int) - 1))

/-- The PG count `createPool` resolves: the `pgnum` option parsed with its
error dropped when the option is non-empty, else `derive_pgnum`. -/
def pgNumOf (w : Env) (clusterId : UUID) (request : AddStorageRequest) : Except GoPanic Nat :=
  if request.Options.get "pgnum" ≠ "" then
    .ok (strconv_ParseUint (request.Options.get "pgnum") 32).1
  else derive_pgnum w clusterId request.Size request.Replicas

/-- The value of `quotaMaxObjects` after the quota block of `createPool`. -/
def quotaMaxObjectsOf (request : AddStorageRequest) : Int :=
  if request.QuotaEnabled = true ∧ request.QuotaParams.get "quota_max_objects" ≠ "" then
    (strconv_Atoi (request.QuotaParams.get "quota_max_objects")).1
  else 0

/-- The value of `quotaMaxBytes` after the quota block of `createPool`. -/
def quotaMaxBytesOf (request : AddStorageRequest) : Nat :=
  if request.QuotaEnabled = true ∧ request.QuotaParams.get "quota_max_bytes" ≠ "" then
    (strconv_ParseUint (request.QuotaParams.get "quota_max_bytes") 64).1
  else 0

/-- The quota block of `createPool` rejects `quota_max_objects`. -/
def badQuotaMaxObjects (request : AddStorageRequest) : Prop :=
  request.QuotaEnabled = true ∧ request.QuotaParams.get "quota_max_objects" ≠ "" ∧
    (strconv_Atoi (request.QuotaParams.get "quota_max_objects")).2.isSome = true

/-- The quota block of `createPool` rejects `quota_max_bytes`. -/
def badQuotaMaxBytes (request : AddStorageRequest) : Prop :=
  request.QuotaEnabled = true ∧ request.QuotaParams.get "quota_max_bytes" ≠ "" ∧
    (strconv_ParseUint (request.QuotaParams.get "quota_max_bytes") 64).2.isSome = true

instance (request : AddStorageRequest) : Decidable (badQuotaMaxObjects request) := by
  unfold badQuotaMaxObjects; infer_instance

instance (request : AddStorageRequest) : Decidable (badQuotaMaxBytes request) := by
  unfold badQuotaMaxBytes; infer_instance

/-- The last statement of `createPool`: the backend's result handed on. -/
def handOn (r : Bool × Option GoError) : Run (Bool × Option GoError) :=
  if r.2.isSome ∨ r.1 = false then ret (false, r.2) else ret (true, none)

/-- Go `createPool`; `fuel` bounds the backend's status loop. -/
def createPool (w : Env) (fuel : Nat) (clusterId : UUID) (request : AddStorageRequest) :
    Run (Bool × Option GoError) :=
  emit (.UpdateStatus "Getting cluster details" []) <|
  match w.clusterById clusterId with
  | .error err =>
    emit (.UpdateStatus "Error getting the cluster details" []) <| ret (false, some err)
  | .ok cluster =>
  emit (.UpdateStatus "Getting mons for cluster" []) <|
  match w.nodesByCluster clusterId with
  | .error err =>
    emit (.UpdateStatus "Failed to get mons list for cluster" []) <| ret (false, some err)
  | .ok clusterNodes =>
  if (collectMons clusterNodes).length ≤ 0 then
    emit (.UpdateStatus "No mons found for cluster" []) <|
    ret (false, some (errors_New "No mons available"))
  else
  emit (.UpdateStatus "Getting mon node details" []) <|
  (Run.ofExcept (pickMon w (collectMons clusterNodes))).bind fun monNodeId =>
  match w.nodeById monNodeId with
  | .error err =>
    emit (.UpdateStatus "Error getting mon node details" []) <| ret (false, some err)
  | .ok monnode =>
  emit (.UpdateStatus "Creating pool" []) <|
  (Run.ofExcept (pgNumOf w clusterId request)).bind fun pgNum =>
  if badQuotaMaxObjects request then
    ret (false, some (errors_New "Error parsing quota config value for quota_max_objects"))
  else if badQuotaMaxBytes request then
    ret (false, some (errors_New "Error parsing quota config value for quota_max_bytes"))
  else
  emit (.BackendCreatePool request.Name monnode.Hostname cluster.Name pgNum request.Replicas
    (quotaMaxObjectsOf request) (quotaMaxBytesOf request)) <|
  (CephApi.CreatePool w fuel request.Name monnode.Hostname cluster.Name pgNum request.Replicas
    (quotaMaxObjectsOf request) (quotaMaxBytesOf request)).bind handOn

/-- The storage entity `asyncTask` builds from the request. -/
def newStorage (storage_id cluster_id : UUID) (request : AddStorageRequest) : Storage where
  StorageId := storage_id
  Name := request.Name
  Type_ := request.Type_
  Tags := request.Tags
  ClusterId := cluster_id
  Size := request.Size
  Status := STATUS_UP
  Replicas := request.Replicas
  Profile := request.Profile
  SnapshotsEnabled := request.SnapshotsEnabled
  QuotaEnabled := request.QuotaEnabled
  QuotaParams := request.QuotaParams
  Options := request.Options

/-- The task body `asyncTask` of Go `CreateStorage`, run on task `taskId`. -/
def CreateStorage_asyncTask (w : Env) (fuel : Nat) (cluster_id : UUID)
    (request : AddStorageRequest) (taskId : String) : Run Unit :=
  emit (.UpdateStatus "Statrted ceph provider pool creation: %v" [taskId]) <|
  (createPool w fuel cluster_id request).bind fun r =>
  if r.2.isSome ∨ r.1 = false then
    emit (.UpdateStatus "Failed. error: %v" [fmtErr r.2]) <| emit .Done <| ret ()
  else
  emit (.UpdateStatus "Perisisting the storage entity" []) <|
  match w.uuid_New with
  | .error err => emit (.UpdateStatus "Failed. error: %v" [err.msg]) <| emit .Done <| ret ()
  | .ok storage_id =>
  emit (.Insert (newStorage storage_id cluster_id request)) <|
  match w.insertStorage (newStorage storage_id cluster_id request) with
  | some err => emit (.UpdateStatus "Error. error: %v" [err.msg]) <| emit .Done <| ret ()
  | none => emit (.UpdateStatus "Success" []) <| emit .Done <| ret ()

/-! ## The helpers of `bigfin/utils` and the spec's formula -/

/-- A natural number is a power of two. -/
def IsTwosPower (p : Nat) : Prop := ∃ k, p = 2 ^ k

/-- The contract of `utils.NextTwosPower`: the least power of two that is at
least the argument, for the arguments up to `2 ^ 63`; above them no power of
two at least the argument is a `uint`, and the contract says nothing. -/
def LeastTwosPower (f : Nat → Nat) : Prop :=
  ∀ x, x ≤ 2 ^ 63 → IsTwosPower (f x) ∧ x ≤ f x ∧ ∀ k, x ≤ 2 ^ k → f x ≤ 2 ^ k

/-- The contract of `utils.RandomNum`: the number drawn lies in the range. -/
def RandomInRange (f : Int → Int → Int) : Prop :=
  ∀ lo hi, lo ≤ hi → lo ≤ f lo hi ∧ f lo hi ≤ hi

/-- Doubling search: the first of `p, 2p, 4p, ...` that is at least `n`. -/
def twosPowerFrom : Nat → Nat → Nat → Nat
  | 0, p, _ => p
  | fuel + 1, p, n => if n ≤ p then p else twosPowerFrom fuel (2 * p) n

/-- Modelled from the spec: `utils.NextTwosPower` is not among the sources;
the result is the argument "rounded up to the next power of two", the least
power of two that is at least the argument. The result is a `uint`: for an
argument above `2 ^ 63`, where that power does not fit and the spec is silent,
this model gives `2 ^ 63`, the largest power of two of the type. -/
def spec_NextTwosPower (n : Nat) : Nat := min (twosPowerFrom n 1 n) (2 ^ 63)

/-- Value of a string of decimal digits, `none` if another character occurs. -/
def decimalLoop : List Char → Nat → Option Nat
  | [], n => some n
  | c :: cs, n =>
    match digitVal c with
    | none => none
    | some d => decimalLoop cs (n * 10 + d)

/-- The integer a decimal unsigned integer string denotes: `none` unless the
string is a non-empty run of decimal digits. -/
def decimalValue (s : String) : Option Nat :=
  if s.toList = [] then none else decimalLoop s.toList 0

/-- Modelled from the spec: `utils.SizeFromStr` is not among the sources; the
size is a "human-readable capacity string" such as `100GB` or `1TB`, read here
as a decimal count followed by an optional binary unit, giving bytes as a
`uint64` (0 for a string of another form). -/
def spec_SizeFromStr (s : String) : Nat :=
  match decimalLoop (s.toList.takeWhile fun c => (digitVal c).isSome) 0 with
  | none => 0
  | some count =>
    if s.toList.takeWhile (fun c => (digitVal c).isSome) = [] then 0
    else
      let unit := String.mk (s.toList.dropWhile fun c => (digitVal c).isSome)
      if unit = "" ∨ unit = "B" then u64 count
      else if unit = "KB" then u64 (count * 2 ^ 10)
      else if unit = "MB" then u64 (count * 2 ^ 20)
      else if unit = "GB" then u64 (count * 2 ^ 30)
      else if unit = "TB" then u64 (count * 2 ^ 40)
      else if unit = "PB" then u64 (count * 2 ^ 50)
      else 0

/-- Spec §4.1: `avgOsdSize`, the mean device size over all OSDs. -/
def spec_avgOsdSize (slus : List StorageLogicalUnit) : ℚ :=
  ((slus.map fun slu => (slu.StorageDeviceSize : ℚ)).sum) / (slus.length : ℚ)

/-- Spec §4.1: `maxAllocSize = avgOsdSize * n / replicaCount * 0.8`. -/
def spec_maxAllocSize (slus : List StorageLogicalUnit) (replicaCount : Int) : ℚ :=
  spec_avgOsdSize slus * (slus.length : ℚ) / (replicaCount : ℚ) * (8 / 10)

/-- Spec §4.1: `raw = 200 * n * (requestedSize / maxAllocSize) / replicaCount`,
the data fraction being a real-valued quotient. -/
def spec_raw (slus : List StorageLogicalUnit) (requestedSize : Nat) (replicaCount : Int) : ℚ :=
  200 * (slus.length : ℚ) * ((requestedSize : ℚ) / spec_maxAllocSize slus replicaCount)
    / (replicaCount : ℚ)

/-- A log holds a status read (an HTTP request after the submission) that the
cluster answered with a body decoding to the state `complete`. -/
def CompletedPoll (w : Env) (mon : String) (log : List Event) : Prop :=
  ∃ e ∈ log, ∃ seq resp body st, e.seq = some seq ∧ 1 ≤ seq ∧
    w.answer mon e = some (.ok resp) ∧ resp.Body = .ok body ∧
    w.unmarshalStatus body = .ok st ∧ st.State = "complete"

/-- An answer to the create-pool submission that is not accepted: a transport
error, or a status code other than 200 and 202. -/
def SubmitRejected (r : Except GoError Response) : Prop :=
  match r with
  | .error _ => True
  | .ok resp => resp.StatusCode ≠ 200 ∧ resp.StatusCode ≠ 202

/-- The answer a call of `CephApi.CreatePool` gets to its submission: what
`route_request` returns for the create-pool route (a response, or the error
of the transport call or of the route's method); `none` when the call ends
before it submits. -/
def submitAnswer (w : Env) (name mon clusterName : String) (pgnum : Nat) (replicas : Int)
    (quotaMaxObjects : Int) (quotaMaxBytes : Nat) : Option (Except GoError Response) :=
  match cluster_id w clusterName with
  | .error _ => none
  | .ok cluster_id =>
    match w.marshalPool
      { Name := name, Size := replicas, MinSize := 1, QuotaMaxObjects := quotaMaxObjects,
        HashPsPool := false, QuotaMaxBytes := quotaMaxBytes, PgNum := int_of_uint pgnum,
        PgpNum := int_of_uint pgnum, CrashReplayInterval := 0 } with
    | .error _ => none
    | .ok buf =>
      match (route_request w 0 (createPoolRoute w cluster_id) mon buf).out with
      | .ret r => some r
      | _ => none

/-! ## Example clusters and requests -/

def monOptions : GoMap := ⟨[("mon", "Y")], by decide⟩

def osdOptions : GoMap := ⟨[("mon", "N"), ("osd", "Y")], by decide⟩

def mon1 : Node := ⟨"n1", "mon1.example", "c1", monOptions⟩
def mon2 : Node := ⟨"n2", "mon2.example", "c1", monOptions⟩
def mon3 : Node := ⟨"n3", "mon3.example", "c1", monOptions⟩
def osdHost : Node := ⟨"n4", "osd1.example", "c1", osdOptions⟩

/-- An inventory of `n` OSDs of `size` bytes each. -/
def osds (n size : Nat) : List StorageLogicalUnit :=
  List.replicate n ⟨"osd", "c1", size⟩

/-- The route table of the example clusters. -/
def demoRoutes (name : String) : CephApiRoute :=
  if name = "CreatePool" then ⟨"CreatePool", "POST", "cluster/\x7bcluster-fsid\x7d/pool", 2⟩
  else if name = "GetRequestStatus" then
    ⟨"GetRequestStatus", "GET", "request/\x7brequest-fsid\x7d", 2⟩
  else ⟨"", "", "", 0⟩

/-- A cluster `c1` with the given nodes and OSD inventory: every datastore
call succeeds, the submission is accepted with 202, and the status read
answers `running` twice and `complete` from the third read on. The codec
takes a body as the text of the one field it decodes. -/
def demoEnv (nodes : List Node) (slus : List StorageLogicalUnit) : Env where
  clusterById := fun id => if id = "c1" then .ok ⟨"c1", "ceph"⟩ else .error ⟨"not found"⟩
  clusterByName := fun name =>
    if name = "ceph" then .ok ⟨"c1", "ceph"⟩ else .error ⟨"not found"⟩
  nodesByCluster := fun id => if id = "c1" then .ok nodes else .ok []
  nodeById := fun id =>
    match nodes.find? fun node => node.NodeId = id with
    | some node => .ok node
    | none => .error ⟨"not found"⟩
  osdsByCluster := fun id => if id = "c1" then .ok slus else .ok []
  insertStorage := fun _ => none
  uuid_New := .ok "s1"
  SizeFromStr := spec_SizeFromStr
  NextTwosPower := spec_NextTwosPower
  NextTwosPower_uint := fun _ => Nat.lt_of_le_of_lt (Nat.min_le_right _ _) (by decide)
  RandomNum := fun _ hi => hi
  CEPH_API_ROUTES := demoRoutes
  CEPH_API_PORT := 8002
  CEPH_API_DEFAULT_PREFIX := "api"
  marshalPool := fun pool => .ok pool.Name
  unmarshalAsync := fun body => .ok ⟨body⟩
  unmarshalStatus := fun body => .ok ⟨body⟩
  HttpPost := fun _ _ _ _ _ => .ok ⟨202, .ok "req-1"⟩
  HttpGet := fun seq _ => .ok ⟨200, .ok (if seq < 3 then "running" else "complete")⟩

/-- The spec's end-to-end cluster: 3 monitors, 60 OSDs of 1TB each. -/
def env60 : Env := demoEnv [mon1, osdHost, mon2, mon3] (osds 60 (2 ^ 40))

/-- A cluster of 64 OSDs of one byte each. -/
def envTiny : Env := demoEnv [mon1, osdHost] (osds 64 1)

/-- A cluster of 51 OSDs reporting a device size of 0. -/
def envZero : Env := demoEnv [mon1, osdHost] (osds 51 0)

/-- A cluster of 100 OSDs of 1TB each with a single monitor. -/
def env100 : Env := demoEnv [osdHost, mon1] (osds 100 (2 ^ 40))

/-- The cluster `env60` whose control API answers the submission with 500 at
the monitor `mon3.example` and accepts it at any other. -/
def env500AtMon3 : Env :=
  { env60 with
    HttpPost := fun _ mon _ _ _ =>
      if mon = "mon3.example" then .ok ⟨500, .ok "internal error"⟩ else .ok ⟨202, .ok "req-1"⟩ }

/-- The spec's end-to-end request: size `100GB`, replica count 3. -/
def demoRequest : AddStorageRequest where
  Name := "pool1"
  Type_ := "replicated"
  Tags := []
  Size := "100GB"
  Replicas := 3
  Profile := "default"
  SnapshotsEnabled := false
  QuotaEnabled := false
  QuotaParams := GoMap.empty
  Options := GoMap.empty

/-- The request `demoRequest` with the option `pgnum` set. -/
def requestWithPgnum (pgnum : String) : AddStorageRequest :=
  { demoRequest with Options := ⟨[("pgnum", pgnum)], by simp⟩ }

/-- The request `demoRequest` with quota enabled and both quota parameters
set. -/
def requestWithQuota (maxObjects maxBytes : String) (replicas : Int) : AddStorageRequest :=
  { demoRequest with
    Replicas := replicas
    QuotaEnabled := true
    QuotaParams :=
      ⟨[("quota_max_objects", maxObjects), ("quota_max_bytes", maxBytes)], by simp⟩ }

set_option maxRecDepth 100000

/-! ## The helpers' contracts -/

theorem twosPowerFrom_least (fuel j n : Nat) (hlow : ∀ i, i < j → 2 ^ i < n)
    (hfuel : n ≤ 2 ^ j * 2 ^ fuel) :
    ∃ k, twosPowerFrom fuel (2 ^ j) n = 2 ^ k ∧ n ≤ 2 ^ k ∧ ∀ i, i < k → 2 ^ i < n := by
  induction fuel generalizing j with
  | zero => exact ⟨j, rfl, by simpa using hfuel, hlow⟩
  | succ fuel ih =>
    unfold twosPowerFrom
    by_cases h : n ≤ 2 ^ j
    · rw [if_pos h]
      exact ⟨j, rfl, h, hlow⟩
    · rw [if_neg h]
      have h2 : 2 * 2 ^ j = 2 ^ (j + 1) := by rw [pow_succ]; ring
      rw [h2]
      apply ih
      · intro i hi
        rcases Nat.lt_succ_iff_lt_or_eq.mp hi with hlt | heq
        · exact hlow i hlt
        · subst heq
          exact Nat.lt_of_not_le h
      · calc n ≤ 2 ^ j * 2 ^ (fuel + 1) := hfuel
          _ = 2 ^ (j + 1) * 2 ^ fuel := by ring

theorem twosPower_least (x : Nat) :
    ∃ k, twosPowerFrom x 1 x = 2 ^ k ∧ x ≤ 2 ^ k ∧ ∀ i, i < k → 2 ^ i < x := by
  have hx : x ≤ 2 ^ 0 * 2 ^ x := by
    have := Nat.lt_two_pow x
    omega
  obtain ⟨k, hk, hle, hlow⟩ :=
    twosPowerFrom_least x 0 x (fun i hi => absurd hi (Nat.not_lt_zero i)) hx
  exact ⟨k, by simpa using hk, hle, hlow⟩

theorem twosPower_monotone : Monotone fun x => twosPowerFrom x 1 x := by
  intro x y hxy
  obtain ⟨k, hk, _, hlow⟩ := twosPower_least x
  obtain ⟨m, hm, hy, _⟩ := twosPower_least y
  simp only [hk, hm]
  by_cases hmk : m < k
  · exact absurd (Nat.le_trans hxy hy) (Nat.not_le_of_lt (hlow m hmk))
  · exact Nat.pow_le_pow_right (by decide) (Nat.le_of_not_lt hmk)

theorem spec_NextTwosPower_least : LeastTwosPower spec_NextTwosPower := by
  intro x hx
  obtain ⟨k, hk, hle, hlow⟩ := twosPower_least x
  have hk63 : k ≤ 63 := by
    by_contra hgt
    have := hlow 63 (by omega)
    omega
  have hfit : 2 ^ k ≤ 2 ^ 63 := Nat.pow_le_pow_right (by decide) hk63
  have hk2 : spec_NextTwosPower x = 2 ^ k := by
    unfold spec_NextTwosPower
    rw [hk]
    exact Nat.min_eq_left hfit
  refine ⟨⟨k, hk2⟩, hk2 ▸ hle, ?_⟩
  intro m hm
  rw [hk2]
  by_cases hmk : m < k
  · exact absurd hm (Nat.not_le_of_lt (hlow m hmk))
  · exact Nat.pow_le_pow_right (by decide) (Nat.le_of_not_lt hmk)

theorem spec_NextTwosPower_monotone : Monotone spec_NextTwosPower := by
  intro x y hxy
  unfold spec_NextTwosPower
  exact min_le_min (twosPower_monotone hxy) (le_refl _)

theorem LeastTwosPower.pos {f : Nat → Nat} (hf : LeastTwosPower f) (x : Nat)
    (hx : x ≤ 2 ^ 63) : 0 < f x := by
  obtain ⟨⟨k, hk⟩, _, _⟩ := hf x hx
  rw [hk]
  exact Nat.pos_pow_of_pos k (by decide)

/-! ## Runs -/

@[simp] theorem ret_log {α : Type} (a : α) : (ret a).log = [] := rfl

@[simp] theorem ret_out {α : Type} (a : α) : (ret a).out = .ret a := rfl

@[simp] theorem emit_log {α : Type} (e : Event) (k : Run α) : (emit e k).log = e :: k.log := rfl

@[simp] theorem emit_out {α : Type} (e : Event) (k : Run α) : (emit e k).out = k.out := rfl

@[simp] theorem ofExcept_log {α : Type} (x : Except GoPanic α) : (Run.ofExcept x).log = [] := by
  cases x <;> rfl

@[simp] theorem ofExcept_ok {α : Type} (a : α) : Run.ofExcept (.ok a : Except GoPanic α) = ret a :=
  rfl

theorem bind_of_ret {α β : Type} (r : Run α) (f : α → Run β) (a : α) (h : r.out = .ret a) :
    (r.bind f).log = r.log ++ (f a).log ∧ (r.bind f).out = (f a).out := by
  simp [Run.bind, h]

theorem bind_of_panic {α β : Type} (r : Run α) (f : α → Run β) (p : GoPanic)
    (h : r.out = .panic p) : (r.bind f).log = r.log ∧ (r.bind f).out = .panic p := by
  simp [Run.bind, h]

theorem bind_of_polling {α β : Type} (r : Run α) (f : α → Run β) (h : r.out = .polling) :
    (r.bind f).log = r.log ∧ (r.bind f).out = .polling := by
  simp [Run.bind, h]

@[simp] theorem ret_bind {α β : Type} (a : α) (f : α → Run β) : (ret a).bind f = f a := by
  simp [Run.bind, ret]

theorem mem_bind_log {α β : Type} (r : Run α) (f : α → Run β) (e : Event) :
    e ∈ (r.bind f).log ↔ e ∈ r.log ∨ ∃ a, r.out = .ret a ∧ e ∈ (f a).log := by
  cases h : r.out with
  | ret a => simp [Run.bind, h]
  | panic p => simp [Run.bind, h]
  | polling => simp [Run.bind, h]

theorem bind_out_ret {α β : Type} (r : Run α) (f : α → Run β) (b : β) :
    (r.bind f).out = .ret b ↔ ∃ a, r.out = .ret a ∧ (f a).out = .ret b := by
  cases h : r.out with
  | ret a => simp [Run.bind, h]
  | panic p => simp [Run.bind, h]
  | polling => simp [Run.bind, h]

/-! ## The control-plane client -/

theorem route_request_cases (w : Env) (seq : Nat) (route : CephApiRoute) (mon body : String) :
    ((route_request w seq route mon body).log = [] ∧
      (route_request w seq route mon body).out = .ret (.error (errors_New "Invalid method type")))
    ∨ ∃ e r, (route_request w seq route mon body).log = [e] ∧ e.isHttp = true ∧
        e.seq = some seq ∧ w.answer mon e = some r ∧
        (route_request w seq route mon body).out = .ret r := by
  unfold route_request
  by_cases hP : route.Method = "POST"
  · right
    exact ⟨.HttpPost seq (route_url w route mon) body,
      w.HttpPost seq mon (route_url w route mon) "application/json" body,
      by simp [hP], rfl, rfl, rfl, by simp [hP]⟩
  · by_cases hG : route.Method = "GET"
    · right
      exact ⟨.HttpGet seq (route_url w route mon), w.HttpGet seq (route_url w route mon),
        by simp [hP, hG], rfl, rfl, rfl, by simp [hP, hG]⟩
    · left
      simp [hP, hG]

theorem pollLoop_ret (w : Env) (mon rid : String) (fuel : Nat) :
    ∀ (seq : Nat) (r : Bool × Option GoError), 1 ≤ seq →
      (pollLoop w mon rid fuel seq).out = .ret r →
      (r = (true, none) ∧ CompletedPoll w mon (pollLoop w mon rid fuel seq).log) ∨
      (r.1 = false ∧ r.2.isSome = true) := by
  induction fuel with
  | zero => intro seq r _ h; simp [pollLoop] at h
  | succ fuel ih =>
    intro seq r hseq h
    unfold pollLoop at h ⊢
    simp only [emit_log, emit_out] at h ⊢
    rcases route_request_cases w seq (statusRoute w rid) mon "" with ⟨hlog, hout⟩ | ⟨e, x, hlog, hhttp, hs, hans, hout⟩
    · rw [(bind_of_ret _ _ _ hout).2] at h
      simp at h
      right
      subst h
      simp
    · rw [(bind_of_ret _ _ _ hout).2] at h
      rw [(bind_of_ret _ _ _ hout).1, hlog]
      cases x with
      | error err =>
        simp at h
        right; subst h; simp
      | ok resp =>
        simp only at h ⊢
        cases hb : resp.Body with
        | error err =>
          simp [hb] at h
          right; subst h; simp
        | ok body =>
          simp only [hb] at h ⊢
          cases hu : w.unmarshalStatus body with
          | error err =>
            simp [hu] at h
            right; subst h; simp
          | ok st =>
            simp only [hu] at h ⊢
            by_cases hc : st.State = "complete"
            · simp [hc] at h
              left
              refine ⟨h.symm, e, by simp, seq, resp, body, st, hs, hseq, hans, hb, hu, hc⟩
            · simp only [hc, if_false] at h ⊢
              rcases ih (seq + 1) r (by omega) h with ⟨hr, e2, he2, hrest⟩ | hr
              · left
                exact ⟨hr, e2, by simp [he2], hrest⟩
              · right; exact hr

theorem pollLoop_log (w : Env) (mon rid : String) (fuel : Nat) :
    ∀ (seq : Nat), ∀ e ∈ (pollLoop w mon rid fuel seq).log,
      e.isSleep = true ∨ e.isHttp = true := by
  induction fuel with
  | zero => intro seq e he; simp [pollLoop] at he
  | succ fuel ih =>
    intro seq e he
    unfold pollLoop at he
    simp only [emit_log, List.mem_cons, mem_bind_log] at he
    rcases he with rfl | he | ⟨x, hout, he⟩
    · left; rfl
    · rcases route_request_cases w seq (statusRoute w rid) mon "" with ⟨hlog, _⟩ | ⟨e2, x, hlog, hhttp, _, _, _⟩
      · rw [hlog] at he; cases he
      · rw [hlog] at he
        simp at he
        subst he
        right; exact hhttp
    · cases x with
      | error err => simp at he
      | ok resp =>
        simp only at he
        split at he
        · simp at he
        · split at he
          · simp at he
          · split at he
            · simp at he
            · exact ih _ e he

theorem CreatePool_ret (w : Env) (fuel : Nat) (name mon clusterName : String) (pgnum : Nat)
    (replicas : Int) (quotaMaxObjects : Int) (quotaMaxBytes : Nat) (r : Bool × Option GoError)
    (h : (CephApi.CreatePool w fuel name mon clusterName pgnum replicas quotaMaxObjects
      quotaMaxBytes).out = .ret r) :
    (r = (true, none) ∧ CompletedPoll w mon (CephApi.CreatePool w fuel name mon clusterName pgnum
      replicas quotaMaxObjects quotaMaxBytes).log) ∨ (r.1 = false ∧ r.2.isSome = true) := by
  unfold CephApi.CreatePool at h ⊢
  split at h
  · simp at h; right; subst h; simp
  · rename_i cid _
    split at h
    · simp at h; right; subst h; simp
    · rename_i buf hbuf
      rcases route_request_cases w 0 (createPoolRoute w cid) mon buf with ⟨hlog, hout⟩ | ⟨e, x, hlog, hhttp, hs, hans, hout⟩
      · rw [(bind_of_ret _ _ _ hout).2] at h
        simp at h; right; subst h; simp
      · rw [(bind_of_ret _ _ _ hout).2] at h
        rw [(bind_of_ret _ _ _ hout).1, hlog]
        cases x with
        | error err => simp at h; right; subst h; simp
        | ok resp =>
          simp only at h ⊢
          by_cases hst : resp.StatusCode ≠ 200 ∧ resp.StatusCode ≠ 202
          · rw [if_pos hst] at h
            simp at h; right; subst h; simp
          · rw [if_neg hst] at h
            rw [if_neg hst]
            cases hb : resp.Body with
            | error err => simp [hb] at h; right; subst h; simp
            | ok body =>
              simp only [hb] at h ⊢
              cases hu : w.unmarshalAsync body with
              | error err => simp [hu] at h; right; subst h; simp
              | ok asyncReq =>
                simp only [hu] at h ⊢
                rcases pollLoop_ret w mon asyncReq.RequestId fuel 1 r (le_refl 1) h with
                  ⟨hr, e2, he2, hrest⟩ | hr
                · left
                  exact ⟨hr, e2, by simp [he2], hrest⟩
                · right; exact hr

theorem CreatePool_log (w : Env) (fuel : Nat) (name mon clusterName : String) (pgnum : Nat)
    (replicas : Int) (quotaMaxObjects : Int) (quotaMaxBytes : Nat) :
    ∀ e ∈ (CephApi.CreatePool w fuel name mon clusterName pgnum replicas quotaMaxObjects
      quotaMaxBytes).log, e.isSleep = true ∨ e.isHttp = true := by
  intro e he
  unfold CephApi.CreatePool at he
  split at he
  · simp at he
  · rename_i cid _
    split at he
    · simp at he
    · rename_i buf hbuf
      rw [mem_bind_log] at he
      rcases he with he | ⟨x, hout, he⟩
      · rcases route_request_cases w 0 (createPoolRoute w cid) mon buf with ⟨hlog, _⟩ | ⟨e2, x, hlog, hhttp, _, _, _⟩
        · rw [hlog] at he; cases he
        · rw [hlog] at he
          simp at he
          subst he
          right; exact hhttp
      · cases x with
        | error err => simp at he
        | ok resp =>
          simp only at he
          split at he
          · simp at he
          · split at he
            · simp at he
            · split at he
              · simp at he
              · exact pollLoop_log w mon _ fuel 1 e he

theorem CreatePool_rejected (w : Env) (fuel : Nat) (name mon clusterName : String) (pgnum : Nat)
    (replicas : Int) (quotaMaxObjects : Int) (quotaMaxBytes : Nat)
    (r : Except GoError Response)
    (hsub : submitAnswer w name mon clusterName pgnum replicas quotaMaxObjects quotaMaxBytes
      = some r)
    (hrej : SubmitRejected r) :
    (∃ err, (CephApi.CreatePool w fuel name mon clusterName pgnum replicas quotaMaxObjects
      quotaMaxBytes).out = .ret (false, some err)) ∧
    ∀ e ∈ (CephApi.CreatePool w fuel name mon clusterName pgnum replicas quotaMaxObjects
      quotaMaxBytes).log, e.isSleep = false ∧ e.seq = some 0 := by
  unfold submitAnswer at hsub
  unfold CephApi.CreatePool
  cases hcid : cluster_id w clusterName with
  | error err => simp [hcid] at hsub
  | ok cid =>
    simp only [hcid] at hsub ⊢
    cases hbuf : w.marshalPool
      { Name := name, Size := replicas, MinSize := 1, QuotaMaxObjects := quotaMaxObjects,
        HashPsPool := false, QuotaMaxBytes := quotaMaxBytes, PgNum := int_of_uint pgnum,
        PgpNum := int_of_uint pgnum, CrashReplayInterval := 0 } with
    | error err => simp [hbuf] at hsub
    | ok buf =>
      simp only [hbuf] at hsub ⊢
      rcases route_request_cases w 0 (createPoolRoute w cid) mon buf with
        ⟨hlog, hout⟩ | ⟨e, x, hlog, hhttp, hs, hans, hout⟩
      · rw [(bind_of_ret _ _ _ hout).2, (bind_of_ret _ _ _ hout).1, hlog]
        simp
      · rw [(bind_of_ret _ _ _ hout).2, (bind_of_ret _ _ _ hout).1, hlog]
        rw [hout] at hsub
        simp only [Option.some.injEq] at hsub
        subst hsub
        have hsl : e.isSleep = false := by
          cases e <;> simp [Event.isHttp] at hhttp <;> rfl
        cases x with
        | error err => simp [hsl, hs]
        | ok resp =>
          simp only [SubmitRejected] at hrej
          simp [hrej, hsl, hs]

@[simp] theorem ofExcept_error_bind {α β : Type} (p : GoPanic) (f : α → Run β) :
    (Run.ofExcept (.error p : Except GoPanic α)).bind f = ⟨[], .panic p⟩ := rfl

theorem handOn_spec (r : Bool × Option GoError) :
    (handOn r).log = [] ∧
    (((r.2.isSome = true ∨ r.1 = false) ∧ (handOn r).out = .ret (false, r.2)) ∨
     ((r.2 = none ∧ r.1 = true) ∧ (handOn r).out = .ret (true, none))) := by
  unfold handOn
  by_cases h : r.2.isSome = true ∨ r.1 = false
  · simp [h]
  · rw [if_neg h]
    simp only [ret_log, ret_out, true_and]
    right
    refine ⟨?_, trivial⟩
    rcases r with ⟨b, o⟩
    cases b <;> cases o <;> simp_all

theorem bind_handOn_log (r : Run (Bool × Option GoError)) : (r.bind handOn).log = r.log := by
  cases h : r.out with
  | ret a => simp [Run.bind, h, (handOn_spec a).1]
  | panic p => simp [Run.bind, h]
  | polling => simp [Run.bind, h]

/-- The two ways a run of `createPool` goes: it stops before the backend call
(with a failure or a panic, having only updated the task status), or it makes
the backend call with the resolved arguments and hands its result on. -/
theorem createPool_cases (w : Env) (fuel : Nat) (clusterId : UUID) (request : AddStorageRequest) :
    ((∀ e ∈ (createPool w fuel clusterId request).log, e.isStatus = true) ∧
      (∀ r, (createPool w fuel clusterId request).out = .ret r → r.1 = false ∧ r.2.isSome = true) ∧
      (createPool w fuel clusterId request).out ≠ .polling) ∨
    ∃ cluster clusterNodes monNodeId monnode pgNum,
      w.clusterById clusterId = .ok cluster ∧ w.nodesByCluster clusterId = .ok clusterNodes ∧
      pickMon w (collectMons clusterNodes) = .ok monNodeId ∧
      w.nodeById monNodeId = .ok monnode ∧ pgNumOf w clusterId request = .ok pgNum ∧
      ¬ badQuotaMaxObjects request ∧ ¬ badQuotaMaxBytes request ∧
      (createPool w fuel clusterId request).log =
        [.UpdateStatus "Getting cluster details" [], .UpdateStatus "Getting mons for cluster" [],
          .UpdateStatus "Getting mon node details" [], .UpdateStatus "Creating pool" [],
          .BackendCreatePool request.Name monnode.Hostname cluster.Name pgNum request.Replicas
            (quotaMaxObjectsOf request) (quotaMaxBytesOf request)]
        ++ (CephApi.CreatePool w fuel request.Name monnode.Hostname cluster.Name pgNum
            request.Replicas (quotaMaxObjectsOf request) (quotaMaxBytesOf request)).log ∧
      (createPool w fuel clusterId request).out =
        ((CephApi.CreatePool w fuel request.Name monnode.Hostname cluster.Name pgNum
            request.Replicas (quotaMaxObjectsOf request) (quotaMaxBytesOf request)).bind
          handOn).out := by
  unfold createPool
  cases hc : w.clusterById clusterId with
  | error err => left; simp [Event.isStatus]
  | ok cluster =>
    cases hn : w.nodesByCluster clusterId with
    | error err => left; simp [Event.isStatus]
    | ok clusterNodes =>
      by_cases hlen : (collectMons clusterNodes).length ≤ 0
      · left; simp [hlen, Event.isStatus]
      · simp only [hlen, if_false]
        cases hp : pickMon w (collectMons clusterNodes) with
        | error p => left; simp [Event.isStatus]
        | ok monNodeId =>
          simp only [ofExcept_ok, ret_bind]
          cases hm : w.nodeById monNodeId with
          | error err => left; simp [Event.isStatus]
          | ok monnode =>
            cases hpg : pgNumOf w clusterId request with
            | error p => left; simp [Event.isStatus]
            | ok pgNum =>
              simp only [ofExcept_ok, ret_bind]
              by_cases hq1 : badQuotaMaxObjects request
              · left; simp [hq1, Event.isStatus]
              · by_cases hq2 : badQuotaMaxBytes request
                · left; simp [hq1, hq2, Event.isStatus]
                · right
                  refine ⟨cluster, clusterNodes, monNodeId, monnode, pgNum, rfl, rfl, hp, hm, rfl,
                    hq1, hq2, ?_, ?_⟩
                  · simp [hq1, hq2, bind_handOn_log]
                  · simp [hq1, hq2]

/-! ## `derive_pgnum` -/

/-- In the capacity-weighted branch with a non-zero `maxAllocSize`, no
division panics and the result is `NextTwosPower` of the integer formula. -/
theorem derive_pgnum_weighted (w : Env) (clusterId : UUID) (size : String) (replicaCount : Int)
    (slus : List StorageLogicalUnit) (hosds : w.osdsByCluster clusterId = .ok slus)
    (hn : 50 < slus.length) (hmax : 0 < maxAllocSizeOf slus replicaCount) :
    derive_pgnum w clusterId size replicaCount =
      .ok (w.NextTwosPower (rawPgnumOf w slus size replicaCount)) := by
  have hlen : u64 slus.length ≠ 0 := by
    intro h0
    unfold maxAllocSizeOf at hmax
    rw [h0] at hmax
    simp [u64] at hmax
  have hrep : uint64_of_int replicaCount ≠ 0 := by
    intro h0
    unfold maxAllocSizeOf at hmax
    rw [h0] at hmax
    simp [u64] at hmax
  have hmax2 : maxAllocSizeOf slus replicaCount ≠ 0 := Nat.pos_iff_ne_zero.mp hmax
  have h5 : ¬ slus.length ≤ 5 := by omega
  have h10 : ¬ slus.length ≤ 10 := by omega
  have h50 : ¬ slus.length ≤ 50 := by omega
  unfold maxAllocSizeOf at hmax2
  simp only [derive_pgnum, hosds, h5, h10, h50, if_false, avg_osd_size, udiv, hlen, hrep,
    bind, Except.bind, hmax2, pure, Except.pure, maxAllocSizeOf, rawPgnumOf]

/-- In the capacity-weighted branch with `maxAllocSize = 0`, or with a zero
divisor before it, `derive_pgnum` panics. -/
theorem derive_pgnum_weighted_panic (w : Env) (clusterId : UUID) (size : String)
    (replicaCount : Int) (slus : List StorageLogicalUnit)
    (hosds : w.osdsByCluster clusterId = .ok slus) (hn : 50 < slus.length)
    (hmax : maxAllocSizeOf slus replicaCount = 0) :
    derive_pgnum w clusterId size replicaCount = .error .divideByZero := by
  have h5 : ¬ slus.length ≤ 5 := by omega
  have h10 : ¬ slus.length ≤ 10 := by omega
  have h50 : ¬ slus.length ≤ 50 := by omega
  simp only [derive_pgnum, hosds, h5, h10, h50, if_false, avg_osd_size, udiv, bind,
    Except.bind, pure, Except.pure]
  by_cases hlen : u64 slus.length = 0
  · simp [hlen]
  · by_cases hrep : uint64_of_int replicaCount = 0
    · simp [hlen, hrep]
    · unfold maxAllocSizeOf at hmax
      simp [hlen, hrep, hmax]

/-- Whatever `derive_pgnum` returns is a fixed tier or, on an inventory of
more than 50 OSDs, `NextTwosPower` of the value of `pgnum`. -/
theorem derive_pgnum_value (w : Env) (clusterId : UUID) (size : String) (replicaCount : Int)
    (p : Nat) (h : derive_pgnum w clusterId size replicaCount = .ok p) :
    p = 128 ∨ p = 512 ∨ p = 4096 ∨
      ∃ slus, w.osdsByCluster clusterId = .ok slus ∧ 50 < slus.length ∧
        p = w.NextTwosPower (rawPgnumOf w slus size replicaCount) := by
  cases hosds : w.osdsByCluster clusterId with
  | error err =>
    simp [derive_pgnum, hosds, DEFAULT_PG_NUM] at h
    omega
  | ok slus =>
    by_cases h5 : slus.length ≤ 5
    · simp [derive_pgnum, hosds, h5, DEFAULT_PG_NUM] at h; omega
    by_cases h10 : slus.length ≤ 10
    · simp [derive_pgnum, hosds, h5, h10] at h; omega
    by_cases h50 : slus.length ≤ 50
    · simp [derive_pgnum, hosds, h5, h10, h50] at h; omega
    have hn : 50 < slus.length := by omega
    rcases Nat.eq_zero_or_pos (maxAllocSizeOf slus replicaCount) with hz | hpos
    · rw [derive_pgnum_weighted_panic w clusterId size replicaCount slus hosds hn hz] at h
      cases h
    · rw [derive_pgnum_weighted w clusterId size replicaCount slus hosds hn hpos] at h
      injection h with h
      exact Or.inr (Or.inr (Or.inr ⟨slus, rfl, hn, h.symm⟩))

/-- C1. With an OSD inventory lookup that succeeds with `n` OSDs,
`derive_pgnum` returns 128 for `n ≤ 5`, 512 for `5 < n ≤ 10` and 4096 for
`10 < n ≤ 50`, for every size string, replica count and `utils` helper. -/
theorem derive_pgnum_fixed_tiers (w : Env) (clusterId : UUID) (size : String)
    (replicaCount : Int) (slus : List StorageLogicalUnit)
    (hosds : w.osdsByCluster clusterId = .ok slus) :
    (slus.length ≤ 5 → derive_pgnum w clusterId size replicaCount = .ok 128) ∧
    (5 < slus.length ∧ slus.length ≤ 10 →
      derive_pgnum w clusterId size replicaCount = .ok 512) ∧
    (10 < slus.length ∧ slus.length ≤ 50 →
      derive_pgnum w clusterId size replicaCount = .ok 4096) := by
  refine ⟨?_, ?_, ?_⟩
  · intro h
    simp [derive_pgnum, hosds, h, DEFAULT_PG_NUM]
  · rintro ⟨h1, h2⟩
    have h5 : ¬ slus.length ≤ 5 := by omega
    simp [derive_pgnum, hosds, h5, h2]
  · rintro ⟨h1, h2⟩
    have h5 : ¬ slus.length ≤ 5 := by omega
    have h10 : ¬ slus.length ≤ 10 := by omega
    simp [derive_pgnum, hosds, h5, h10, h2]

theorem derive_pgnum_fixed_tiers_witness :
    (demoEnv [mon1] (osds 3 (2 ^ 40))).osdsByCluster "c1" = .ok (osds 3 (2 ^ 40)) ∧
    (demoEnv [mon1] (osds 8 (2 ^ 40))).osdsByCluster "c1" = .ok (osds 8 (2 ^ 40)) ∧
    (demoEnv [mon1] (osds 50 (2 ^ 40))).osdsByCluster "c1" = .ok (osds 50 (2 ^ 40)) ∧
    derive_pgnum (demoEnv [mon1] (osds 3 (2 ^ 40))) "c1" "100GB" 3 = .ok 128 ∧
    derive_pgnum (demoEnv [mon1] (osds 8 (2 ^ 40))) "c1" "1PB" 0 = .ok 512 ∧
    derive_pgnum (demoEnv [mon1] (osds 50 (2 ^ 40))) "c1" "" (-1) = .ok 4096 :=
  ⟨rfl, rfl, rfl,
    (derive_pgnum_fixed_tiers (demoEnv [mon1] (osds 3 (2 ^ 40))) "c1" "100GB" 3 _ rfl).1
      (by decide),
    (derive_pgnum_fixed_tiers (demoEnv [mon1] (osds 8 (2 ^ 40))) "c1" "1PB" 0 _ rfl).2.1
      (by decide),
    (derive_pgnum_fixed_tiers (demoEnv [mon1] (osds 50 (2 ^ 40))) "c1" "" (-1) _ rfl).2.2
      (by decide)⟩

/-- C2. On the spec's end-to-end cluster (60 OSDs of 1TB, replica count 3,
requested size 100GB) the integer division truncates the data fraction to 0:
`derive_pgnum` returns 1, while the spec's `raw` is 3125/128 (about 24.4), so
the result is a power of two below `raw`. -/
theorem derive_pgnum_below_raw :
    env60.osdsByCluster "c1" = .ok (osds 60 (2 ^ 40)) ∧
    LeastTwosPower env60.NextTwosPower ∧
    env60.SizeFromStr "100GB" = 100 * 2 ^ 30 ∧
    0 < spec_maxAllocSize (osds 60 (2 ^ 40)) 3 ∧
    derive_pgnum env60 "c1" "100GB" 3 = .ok 1 ∧
    spec_raw (osds 60 (2 ^ 40)) (env60.SizeFromStr "100GB") 3 = 3125 / 128 ∧
    ((1 : Nat) : ℚ) < spec_raw (osds 60 (2 ^ 40)) (env60.SizeFromStr "100GB") 3 := by
  have hsize : env60.SizeFromStr "100GB" = 100 * 2 ^ 30 := by decide
  have hraw : spec_raw (osds 60 (2 ^ 40)) (env60.SizeFromStr "100GB") 3 = 3125 / 128 := by
    rw [hsize]
    simp [spec_raw, spec_maxAllocSize, spec_avgOsdSize, osds]
    norm_num
  refine ⟨rfl, spec_NextTwosPower_least, hsize, ?_, by decide, hraw, ?_⟩
  · simp [spec_maxAllocSize, spec_avgOsdSize, osds]
    norm_num
  · rw [hraw]
    norm_num

/-- With more than 50 OSDs, a replica count of 0 always ends `derive_pgnum` in
the division-by-zero panic. -/
theorem derive_pgnum_zero_replicas (w : Env) (clusterId : UUID) (size : String)
    (slus : List StorageLogicalUnit) (hosds : w.osdsByCluster clusterId = .ok slus)
    (hn : 50 < slus.length) (hlen : slus.length < 2 ^ 64) :
    derive_pgnum w clusterId size 0 = .error .divideByZero := by
  have h5 : ¬ slus.length ≤ 5 := by omega
  have h10 : ¬ slus.length ≤ 10 := by omega
  have h50 : ¬ slus.length ≤ 50 := by omega
  have hne : u64 slus.length ≠ 0 := by
    rw [u64, Nat.mod_eq_of_lt hlen]
    omega
  simp [derive_pgnum, hosds, h5, h10, h50, avg_osd_size, udiv, hne, uint64_of_int, bind,
    Except.bind]

/-- C10. `derive_pgnum` does not guard its divisors: with more than 50 OSDs a
replica count of 0, and likewise an inventory of average size 0, ends in the
run-time panic of an integer division by zero. -/
theorem derive_pgnum_divides_by_zero :
    env60.osdsByCluster "c1" = .ok (osds 60 (2 ^ 40)) ∧
    derive_pgnum env60 "c1" "100GB" 0 = .error .divideByZero ∧
    envZero.osdsByCluster "c1" = .ok (osds 51 0) ∧
    maxAllocSizeOf (osds 51 0) 3 = 0 ∧
    derive_pgnum envZero "c1" "100GB" 3 = .error .divideByZero :=
  ⟨rfl, by decide, rfl, by decide, by decide⟩

/-- C9, as stated, fails: on 64 OSDs of one byte and replica count 3
(`maxAllocSize = 16`), the product `200 * n * pcntData` wraps around at the
larger size, and the PG count drops from 524288 at `1KB` to 1 at `512PB`. -/
theorem derive_pgnum_not_monotone :
    envTiny.osdsByCluster "c1" = .ok (osds 64 1) ∧
    maxAllocSizeOf (osds 64 1) 3 = 16 ∧
    Monotone envTiny.NextTwosPower ∧
    envTiny.SizeFromStr "1KB" = 2 ^ 10 ∧ envTiny.SizeFromStr "512PB" = 2 ^ 59 ∧
    derive_pgnum envTiny "c1" "1KB" 3 = .ok 524288 ∧
    derive_pgnum envTiny "c1" "512PB" 3 = .ok 1 ∧
    ¬ (∀ s1 s2 p1 p2, envTiny.SizeFromStr s1 ≤ envTiny.SizeFromStr s2 →
      derive_pgnum envTiny "c1" s1 3 = .ok p1 → derive_pgnum envTiny "c1" s2 3 = .ok p2 →
      p1 ≤ p2) :=
  ⟨rfl, by decide, spec_NextTwosPower_monotone, by decide, by decide, by decide, by decide,
    fun h => absurd (h "1KB" "512PB" 524288 1 (by decide) (by decide) (by decide)) (by decide)⟩

/-- C9, amended. For a fixed inventory of more than 50 OSDs and a fixed
replica count with `maxAllocSize > 0`, and `NextTwosPower` monotone:
`derive_pgnum` returns at both sizes and is non-decreasing from `s1` to `s2`
whenever the byte sizes satisfy `s1 ≤ s2` and the product
`200 * n * (s2 / maxAllocSize)` does not exceed the `uint64` range. -/
theorem derive_pgnum_monotone (w : Env) (clusterId : UUID) (s1 s2 : String)
    (replicaCount : Int) (slus : List StorageLogicalUnit)
    (hosds : w.osdsByCluster clusterId = .ok slus) (hn : 50 < slus.length)
    (hmax : 0 < maxAllocSizeOf slus replicaCount) (hmono : Monotone w.NextTwosPower)
    (hle : u64 (w.SizeFromStr s1) ≤ u64 (w.SizeFromStr s2))
    (hfit : TARGET_PGS_PER_OSD * u64 slus.length
      * (u64 (w.SizeFromStr s2) / maxAllocSizeOf slus replicaCount) < 2 ^ 64) :
    ∃ p1 p2, derive_pgnum w clusterId s1 replicaCount = .ok p1 ∧
      derive_pgnum w clusterId s2 replicaCount = .ok p2 ∧ p1 ≤ p2 := by
  refine ⟨_, _, derive_pgnum_weighted w clusterId s1 replicaCount slus hosds hn hmax,
    derive_pgnum_weighted w clusterId s2 replicaCount slus hosds hn hmax, ?_⟩
  apply hmono
  unfold rawPgnumOf
  apply Nat.div_le_div_right
  have hq : u64 (w.SizeFromStr s1) / maxAllocSizeOf slus replicaCount
      ≤ u64 (w.SizeFromStr s2) / maxAllocSizeOf slus replicaCount :=
    Nat.div_le_div_right hle
  generalize u64 (w.SizeFromStr s1) / maxAllocSizeOf slus replicaCount = q1 at hq
  generalize u64 (w.SizeFromStr s2) / maxAllocSizeOf slus replicaCount = q2 at hq hfit
  generalize TARGET_PGS_PER_OSD * u64 slus.length = a at hfit
  have h2 : a * q2 % 2 ^ 64 = a * q2 := Nat.mod_eq_of_lt hfit
  have h12 : a * q1 ≤ a * q2 := Nat.mul_le_mul_left a hq
  rcases Nat.eq_zero_or_pos q2 with hz | hpos
  · have hq1 : q1 = 0 := by omega
    simp [hz, hq1]
  · have ha : a < 2 ^ 64 := by
      calc a = a * 1 := (Nat.mul_one a).symm
        _ ≤ a * q2 := Nat.mul_le_mul_left a hpos
        _ < 2 ^ 64 := hfit
    have h1 : a * q1 % 2 ^ 64 = a * q1 := Nat.mod_eq_of_lt (by omega)
    simp only [u64, Nat.mod_eq_of_lt ha, h1, h2]
    exact h12

theorem derive_pgnum_monotone_witness :
    env60.osdsByCluster "c1" = .ok (osds 60 (2 ^ 40)) ∧ 50 < (osds 60 (2 ^ 40)).length ∧
    0 < maxAllocSizeOf (osds 60 (2 ^ 40)) 3 ∧ Monotone env60.NextTwosPower ∧
    u64 (env60.SizeFromStr "100GB") ≤ u64 (env60.SizeFromStr "64TB") ∧
    (∃ p1 p2, derive_pgnum env60 "c1" "100GB" 3 = .ok p1 ∧
      derive_pgnum env60 "c1" "64TB" 3 = .ok p2 ∧ p1 ≤ p2) :=
  ⟨rfl, by decide, by decide, spec_NextTwosPower_monotone, by decide,
    derive_pgnum_monotone env60 "c1" "100GB" "64TB" 3 (osds 60 (2 ^ 40)) rfl (by decide)
      (by decide) spec_NextTwosPower_monotone (by decide) (by decide)⟩

/-! ## PG count resolution in `createPool` -/

theorem decimalLoop_ge (cs : List Char) : ∀ n v, decimalLoop cs n = some v → n ≤ v := by
  induction cs with
  | nil => intro n v h; simp [decimalLoop] at h; omega
  | cons c cs ih =>
    intro n v h
    unfold decimalLoop at h
    cases hd : digitVal c with
    | none => simp [hd] at h
    | some d =>
      simp only [hd] at h
      have := ih _ _ h
      omega

theorem parseUintLoop_decimal (maxVal : Nat) (hmax : maxVal < 2 ^ 64) (cs : List Char) :
    ∀ n v, decimalLoop cs n = some v → v ≤ maxVal → parseUintLoop maxVal cs n = (v, none) := by
  induction cs with
  | nil => intro n v h _; simp [decimalLoop] at h; simp [parseUintLoop, h]
  | cons c cs ih =>
    intro n v h hv
    unfold decimalLoop at h
    unfold parseUintLoop
    cases hd : digitVal c with
    | none => simp [hd] at h
    | some d =>
      simp only [hd] at h ⊢
      have hge := decimalLoop_ge cs _ _ h
      have h1 : ¬ (n ≥ (2 ^ 64 - 1) / 10 + 1) := by
        norm_num at hmax ⊢
        omega
      have h2 : ¬ (n * 10 + d ≥ 2 ^ 64 ∨ n * 10 + d > maxVal) := by
        norm_num at hmax ⊢
        omega
      rw [if_neg h1]
      simp only [h2, if_false]
      exact ih _ _ h hv

theorem ParseUint_decimal (s : String) (bitSize v : Nat) (hbits : bitSize ≤ 64)
    (h : decimalValue s = some v) (hv : v < 2 ^ bitSize) :
    strconv_ParseUint s bitSize = (v, none) := by
  unfold decimalValue at h
  unfold strconv_ParseUint
  by_cases he : s.toList = []
  · rw [if_pos he] at h
    cases h
  · rw [if_neg he] at h
    rw [if_neg he]
    have hpos : 0 < 2 ^ bitSize := Nat.pos_pow_of_pos _ (by decide)
    have hle : 2 ^ bitSize ≤ 2 ^ 64 := Nat.pow_le_pow_right (by decide) hbits
    exact parseUintLoop_decimal _ (by omega) _ _ _ h (by omega)

theorem decimalValue_ne_empty (s : String) (v : Nat) (h : decimalValue s = some v) : s ≠ "" := by
  rintro rfl
  simp [decimalValue] at h

/-- Every PG count passed to the backend is the one `pgNumOf` resolves. -/
theorem createPool_passed_pgnum (w : Env) (fuel : Nat) (clusterId : UUID)
    (request : AddStorageRequest) (pg : Nat)
    (h : pg ∈ (createPool w fuel clusterId request).log.filterMap Event.pgnum) :
    pgNumOf w clusterId request = .ok pg := by
  rw [List.mem_filterMap] at h
  obtain ⟨e, he, hpg⟩ := h
  rcases createPool_cases w fuel clusterId request with ⟨hst, _, _⟩ |
    ⟨cluster, clusterNodes, monNodeId, monnode, pgNum, _, _, _, _, hpgnum, _, _, hlog, _⟩
  · have := hst e he
    cases e <;> simp [Event.isStatus, Event.pgnum] at this hpg
  · rw [hlog] at he
    simp only [List.cons_append, List.nil_append, List.mem_cons] at he
    rcases he with rfl | rfl | rfl | rfl | rfl | he
    · simp [Event.pgnum] at hpg
    · simp [Event.pgnum] at hpg
    · simp [Event.pgnum] at hpg
    · simp [Event.pgnum] at hpg
    · simp [Event.pgnum] at hpg
      rw [← hpg]; exact hpgnum
    · rcases CreatePool_log _ _ _ _ _ _ _ _ _ e he with h1 | h1 <;>
        cases e <;> simp [Event.isSleep, Event.isHttp, Event.pgnum] at h1 hpg

/-- C3, as stated, fails: with the option `pgnum = "0"` the PG count passed
to the backend is 0. -/
theorem createPool_passes_zero_pgnum :
    (requestWithPgnum "0").Options.get "pgnum" = "0" ∧
    (createPool env60 5 "c1" (requestWithPgnum "0")).log.filterMap Event.pgnum = [0] :=
  ⟨by decide, by decide⟩

/-- For a requested size below `maxAllocSize` the value of `pgnum` is 0. -/
theorem rawPgnumOf_small (w : Env) (slus : List StorageLogicalUnit) (size : String)
    (replicaCount : Int)
    (hsmall : u64 (w.SizeFromStr size) < maxAllocSizeOf slus replicaCount) :
    rawPgnumOf w slus size replicaCount = 0 := by
  unfold rawPgnumOf
  rw [Nat.div_eq_of_lt hsmall]
  simp [u64]

/-- With a replica count of at least 2 (as a `uint64`), the value of `pgnum`
is below `2 ^ 63`. -/
theorem rawPgnumOf_le (w : Env) (slus : List StorageLogicalUnit) (size : String)
    (replicaCount : Int) (hrep : 2 ≤ uint64_of_int replicaCount) :
    rawPgnumOf w slus size replicaCount ≤ 2 ^ 63 := by
  unfold rawPgnumOf
  generalize u64 (TARGET_PGS_PER_OSD * u64 slus.length)
    * (u64 (w.SizeFromStr size) / maxAllocSizeOf slus replicaCount) = a
  have ha : u64 a < 2 ^ 64 := Nat.mod_lt _ (by decide)
  have h1 : u64 a / uint64_of_int replicaCount ≤ u64 a / 2 :=
    Nat.div_le_div_left hrep (by decide)
  omega

/-- C3, amended. With `NextTwosPower` taken as the least power of two at least
its argument for the arguments up to `2 ^ 63`, every PG count `createPool`
passes to the backend is positive (and a `uint`) when the `pgnum` option is a
decimal unsigned integer string of a non-zero value below `2 ^ 32`, and when
the option is empty and, should the inventory hold more than 50 OSDs, the
requested size is below `maxAllocSize` or the value of `pgnum` that
`derive_pgnum` rounds is at most `2 ^ 63`. -/
theorem createPool_pgnum_positive (w : Env) (fuel : Nat) (clusterId : UUID)
    (request : AddStorageRequest) (pg : Nat) (hntp : LeastTwosPower w.NextTwosPower)
    (hopt : (request.Options.get "pgnum" = "" ∧
        ∀ slus, w.osdsByCluster clusterId = .ok slus → 50 < slus.length →
          u64 (w.SizeFromStr request.Size) < maxAllocSizeOf slus request.Replicas ∨
          rawPgnumOf w slus request.Size request.Replicas ≤ 2 ^ 63) ∨
      ∃ v, decimalValue (request.Options.get "pgnum") = some v ∧ 0 < v ∧ v < 2 ^ 32)
    (h : pg ∈ (createPool w fuel clusterId request).log.filterMap Event.pgnum) :
    0 < pg ∧ pg < 2 ^ 64 := by
  have hpg := createPool_passed_pgnum w fuel clusterId request pg h
  unfold pgNumOf at hpg
  rcases hopt with ⟨hempty, hfit⟩ | ⟨v, hv, hpos, hfit⟩
  · simp only [hempty, ne_eq, not_true_eq_false, if_false] at hpg
    rcases derive_pgnum_value w clusterId _ _ pg hpg with h1 | h1 | h1 | ⟨slus, hosds, hn, h1⟩
    · omega
    · omega
    · omega
    · rw [h1]
      have hraw : rawPgnumOf w slus request.Size request.Replicas ≤ 2 ^ 63 := by
        rcases hfit slus hosds hn with hsmall | hle
        · rw [rawPgnumOf_small w slus _ _ hsmall]
          exact Nat.zero_le _
        · exact hle
      exact ⟨hntp.pos _ hraw, w.NextTwosPower_uint _⟩
  · rw [if_pos (decimalValue_ne_empty _ v hv), ParseUint_decimal _ 32 v (by decide) hv hfit] at hpg
    injection hpg with hpg
    simp at hpg
    omega

theorem createPool_pgnum_positive_witness :
    LeastTwosPower env60.NextTwosPower ∧ demoRequest.Options.get "pgnum" = "" ∧
    env60.osdsByCluster "c1" = .ok (osds 60 (2 ^ 40)) ∧
    u64 (env60.SizeFromStr demoRequest.Size)
      < maxAllocSizeOf (osds 60 (2 ^ 40)) demoRequest.Replicas ∧
    1 ∈ (createPool env60 5 "c1" demoRequest).log.filterMap Event.pgnum ∧
    (0 < 1 ∧ 1 < 2 ^ 64) :=
  ⟨spec_NextTwosPower_least, by decide, rfl, by decide, by decide,
    createPool_pgnum_positive env60 5 "c1" demoRequest 1 spec_NextTwosPower_least
      (Or.inl ⟨by decide, fun slus hosds _ => by
        have hs : slus = osds 60 (2 ^ 40) := by
          have h2 : env60.osdsByCluster "c1" = .ok (osds 60 (2 ^ 40)) := rfl
          rw [h2] at hosds
          injection hosds with hosds
          exact hosds.symm
        subst hs
        exact Or.inl (by decide)⟩) (by decide)⟩

/-- C4, as stated, fails: `4294967296` is a decimal unsigned integer string,
but `ParseUint(..., 10, 32)` rejects it as out of range, its error is dropped,
and the PG count passed is `4294967295`. -/
theorem createPool_pgnum_out_of_range :
    decimalValue ((requestWithPgnum "4294967296").Options.get "pgnum") = some 4294967296 ∧
    (createPool env100 5 "c1" (requestWithPgnum "4294967296")).log.filterMap Event.pgnum
      = [4294967295] :=
  ⟨by decide, by decide⟩

/-- C4, amended. When the `pgnum` option is a decimal unsigned integer string
whose value is below `2 ^ 32`, the PG count resolved is that value in every
environment (whatever the OSD inventory and the `utils` helpers, so
`derive_pgnum` has no part in it), and every PG count passed to the backend
equals it. -/
theorem createPool_pgnum_override (w : Env) (fuel : Nat) (clusterId : UUID)
    (request : AddStorageRequest) (v : Nat)
    (hv : decimalValue (request.Options.get "pgnum") = some v) (hfit : v < 2 ^ 32) :
    pgNumOf w clusterId request = .ok v ∧
    ∀ pg ∈ (createPool w fuel clusterId request).log.filterMap Event.pgnum, pg = v := by
  have hres : pgNumOf w clusterId request = .ok v := by
    unfold pgNumOf
    rw [if_pos (decimalValue_ne_empty _ v hv), ParseUint_decimal _ 32 v (by decide) hv hfit]
  refine ⟨hres, ?_⟩
  intro pg hpg
  have := createPool_passed_pgnum w fuel clusterId request pg hpg
  rw [hres] at this
  injection this with this
  exact this.symm

/-! ## Monitor selection -/

theorem foldl_mon_absent (node : Node) (l : List (String × String)) :
    ∀ mons, "mon" ∉ l.map Prod.fst →
      l.foldl (fun mons kv => if kv.1 = "mon" ∧ kv.2 = "Y" then mons ++ [node] else mons) mons
        = mons ∧ l.lookup "mon" = none := by
  induction l with
  | nil => intro mons _; simp
  | cons kv l ih =>
    intro mons h
    obtain ⟨k, v⟩ := kv
    simp only [List.map_cons, List.mem_cons, not_or] at h
    have hk : ¬ k = "mon" := fun hk => h.1 hk.symm
    have hb : ("mon" == k) = false := by simpa using h.1
    simp only [List.foldl_cons, hk, false_and, if_false, List.lookup_cons, hb]
    exact ih mons h.2

theorem foldl_mon (node : Node) (l : List (String × String)) :
    ∀ mons, (l.map Prod.fst).Nodup →
      l.foldl (fun mons kv => if kv.1 = "mon" ∧ kv.2 = "Y" then mons ++ [node] else mons) mons
        = if l.lookup "mon" = some "Y" then mons ++ [node] else mons := by
  induction l with
  | nil => intro mons _; simp
  | cons kv l ih =>
    intro mons h
    obtain ⟨k, v⟩ := kv
    simp only [List.map_cons, List.nodup_cons] at h
    by_cases hk : k = "mon"
    · subst hk
      have hrest := foldl_mon_absent node l
      simp only [List.foldl_cons, true_and, List.lookup_cons, beq_self_eq_true]
      by_cases hv : v = "Y"
      · simp [hv, (hrest _ h.1).1]
      · simp [hv, (hrest _ h.1).1]
    · have hb : ("mon" == k) = false := by
        simp only [beq_eq_false_iff_ne, ne_eq]
        exact fun h2 => hk h2.symm
      simp only [List.foldl_cons, hk, false_and, if_false, List.lookup_cons, hb]
      exact ih mons h.2

theorem GoMap_get_mon (m : GoMap) : m.get "mon" = "Y" ↔ m.entries.lookup "mon" = some "Y" := by
  unfold GoMap.get
  cases h : m.entries.lookup "mon" with
  | none => simp
  | some v => simp

theorem appendIfMon_eq (node : Node) (mons : List Node) :
    appendIfMon node mons = if node.Options.get "mon" = "Y" then mons ++ [node] else mons := by
  unfold appendIfMon
  rw [foldl_mon node _ mons node.Options.nodup]
  simp only [GoMap_get_mon]

theorem foldl_appendIfMon (nodes : List Node) : ∀ acc,
    nodes.foldl (fun mons clusterNode => appendIfMon clusterNode mons) acc
      = acc ++ nodes.filter fun node => decide (node.Options.get "mon" = "Y") := by
  induction nodes with
  | nil => intro acc; simp
  | cons node nodes ih =>
    intro acc
    rw [List.foldl_cons, ih, appendIfMon_eq]
    by_cases h : node.Options.get "mon" = "Y"
    · simp [h]
    · simp [h]

/-- The monitor filter keeps exactly the nodes whose option `mon` is `Y`. -/
theorem collectMons_eq (nodes : List Node) :
    collectMons nodes = nodes.filter fun node => decide (node.Options.get "mon" = "Y") := by
  unfold collectMons
  rw [foldl_appendIfMon]
  simp

theorem nodeIdAt_mem (mons : List Node) (i : Int) (h0 : 0 ≤ i) (h1 : i < mons.length) :
    ∃ node ∈ mons, nodeIdAt mons i = .ok node.NodeId := by
  unfold nodeIdAt
  have hlt : i.toNat < mons.length := by omega
  rw [if_neg (by omega), List.get?_eq_get hlt]
  exact ⟨_, List.get_mem mons i.toNat hlt, rfl⟩

theorem pickMon_mem (w : Env) (mons : List Node) (hrand : RandomInRange w.RandomNum)
    (hne : mons ≠ []) : ∃ node ∈ mons, pickMon w mons = .ok node.NodeId := by
  unfold pickMon
  have hpos : 0 < mons.length := List.length_pos.mpr hne
  by_cases h1 : mons.length = 1
  · rw [if_pos h1]
    exact nodeIdAt_mem mons 0 (le_refl 0) (by omega)
  · rw [if_neg h1]
    have := hrand 0 ((mons.length : Int) - 1) (by omega)
    exact nodeIdAt_mem mons _ this.1 (by omega)

/-- C6. Monitor selection in `createPool`, for the nodes the datastore returns:
the run stops at "No mons found for cluster" exactly when no node has the
option `mon = "Y"`, and then fails with the error "No mons available";
otherwise, `RandomNum` drawing inside its range, the id selected is that of a
returned node with `mon = "Y"`; with exactly one such node that node is
selected whatever `RandomNum` draws; and the monitor of any backend call is the
node the datastore holds under the selected id. -/
theorem monitor_selection (w : Env) (fuel : Nat) (clusterId : UUID)
    (request : AddStorageRequest) (cluster : Cluster) (nodes : List Node)
    (hc : w.clusterById clusterId = .ok cluster) (hnodes : w.nodesByCluster clusterId = .ok nodes) :
    (Event.UpdateStatus "No mons found for cluster" [] ∈ (createPool w fuel clusterId request).log
      ↔ ∀ node ∈ nodes, node.Options.get "mon" ≠ "Y") ∧
    ((∀ node ∈ nodes, node.Options.get "mon" ≠ "Y") →
      (createPool w fuel clusterId request).out
        = .ret (false, some (errors_New "No mons available"))) ∧
    (RandomInRange w.RandomNum → (∃ node ∈ nodes, node.Options.get "mon" = "Y") →
      ∃ node ∈ nodes, node.Options.get "mon" = "Y" ∧
        pickMon w (collectMons nodes) = .ok node.NodeId) ∧
    (∀ m, (nodes.filter fun node => decide (node.Options.get "mon" = "Y")) = [m] →
      pickMon w (collectMons nodes) = .ok m.NodeId) ∧
    (∀ name mon clusterName pgnum replicas quotaMaxObjects quotaMaxBytes,
      Event.BackendCreatePool name mon clusterName pgnum replicas quotaMaxObjects quotaMaxBytes
        ∈ (createPool w fuel clusterId request).log →
      ∃ monNodeId monnode, pickMon w (collectMons nodes) = .ok monNodeId ∧
        w.nodeById monNodeId = .ok monnode ∧ mon = monnode.Hostname) := by
  have hempty : (collectMons nodes).length ≤ 0 ↔ ∀ node ∈ nodes, node.Options.get "mon" ≠ "Y" := by
    rw [collectMons_eq, Nat.le_zero, List.length_eq_zero, List.filter_eq_nil_iff]
    simp
  refine ⟨?_, ?_, ?_, ?_, ?_⟩
  · rw [← hempty]
    unfold createPool
    simp only [hc, hnodes]
    by_cases hlen : (collectMons nodes).length ≤ 0
    · simp [hlen]
    · simp only [hlen, if_false, iff_false]
      cases hp : pickMon w (collectMons nodes) with
      | error p => simp
      | ok monNodeId =>
        simp only [ofExcept_ok, ret_bind]
        cases hm : w.nodeById monNodeId with
        | error err => simp
        | ok monnode =>
          cases hpg : pgNumOf w clusterId request with
          | error p => simp
          | ok pgNum =>
            simp only [ofExcept_ok, ret_bind]
            by_cases hq1 : badQuotaMaxObjects request
            · simp [hq1]
            · by_cases hq2 : badQuotaMaxBytes request
              · simp [hq1, hq2]
              · simp only [hq1, hq2, if_false, emit_log, bind_handOn_log]
                intro hmem
                simp only [List.mem_cons, reduceCtorEq, false_or] at hmem
                simp at hmem
                rcases CreatePool_log _ _ _ _ _ _ _ _ _ _ hmem with h1 | h1 <;>
                  simp [Event.isSleep, Event.isHttp] at h1
  · intro hno
    unfold createPool
    simp [hc, hnodes, hempty.mpr hno]
  · intro hrand ⟨node, hmem, hY⟩
    have hne : collectMons nodes ≠ [] := by
      rw [collectMons_eq]
      intro h
      rw [List.filter_eq_nil_iff] at h
      exact absurd hY (by simpa using h node hmem)
    obtain ⟨m, hm, hpick⟩ := pickMon_mem w _ hrand hne
    rw [collectMons_eq, List.mem_filter] at hm
    exact ⟨m, hm.1, by simpa using hm.2, hpick⟩
  · intro m hm
    rw [collectMons_eq, hm]
    simp [pickMon, nodeIdAt]
  · intro name mon clusterName pgnum replicas qo qb hmem
    rcases createPool_cases w fuel clusterId request with ⟨hst, _, _⟩ |
      ⟨cluster2, clusterNodes, monNodeId, monnode, pgNum, hc2, hn2, hp, hm, _, _, _, hlog, _⟩
    · have := hst _ hmem
      simp [Event.isStatus] at this
    · rw [hnodes] at hn2
      injection hn2 with hn2
      subst hn2
      refine ⟨monNodeId, monnode, hp, hm, ?_⟩
      rw [hlog] at hmem
      simp only [List.cons_append, List.nil_append, List.mem_cons, reduceCtorEq, false_or] at hmem
      rcases hmem with heq | hmem
      · injection heq with _ h2
      · rcases CreatePool_log _ _ _ _ _ _ _ _ _ _ hmem with h1 | h1 <;>
          simp [Event.isSleep, Event.isHttp] at h1

/-! ## The task: backend call, polling and insert -/

theorem CompletedPoll.mono {w : Env} {mon : String} {l l2 : List Event}
    (h : CompletedPoll w mon l) (hsub : ∀ e ∈ l, e ∈ l2) : CompletedPoll w mon l2 := by
  obtain ⟨e, he, rest⟩ := h
  exact ⟨e, hsub e he, rest⟩

/-- The events of `createPool` are status updates, the backend call and the
backend's own sleeps and HTTP requests. -/
theorem createPool_log_kinds (w : Env) (fuel : Nat) (clusterId : UUID)
    (request : AddStorageRequest) :
    ∀ e ∈ (createPool w fuel clusterId request).log,
      e.isStatus = true ∨ e.isBackendCreatePool = true ∨ e.isSleep = true ∨ e.isHttp = true := by
  intro e he
  rcases createPool_cases w fuel clusterId request with ⟨hst, _, _⟩ |
    ⟨cluster, clusterNodes, monNodeId, monnode, pgNum, _, _, _, _, _, _, _, hlog, _⟩
  · exact Or.inl (hst e he)
  · rw [hlog] at he
    simp only [List.cons_append, List.nil_append, List.mem_cons] at he
    rcases he with rfl | rfl | rfl | rfl | rfl | he
    · exact Or.inl rfl
    · exact Or.inl rfl
    · exact Or.inl rfl
    · exact Or.inl rfl
    · exact Or.inr (Or.inl rfl)
    · exact Or.inr (Or.inr (CreatePool_log _ _ _ _ _ _ _ _ _ e he))

theorem createPool_no_insert (w : Env) (fuel : Nat) (clusterId : UUID)
    (request : AddStorageRequest) :
    ∀ e ∈ (createPool w fuel clusterId request).log, e.isInsert = false := by
  intro e he
  rcases createPool_log_kinds w fuel clusterId request e he with h | h | h | h <;>
    cases e <;> simp_all [Event.isStatus, Event.isBackendCreatePool, Event.isSleep, Event.isHttp,
      Event.isInsert]

/-- A run of `createPool` that returns `true` holds a completed status read. -/
theorem createPool_true (w : Env) (fuel : Nat) (clusterId : UUID) (request : AddStorageRequest)
    (r : Bool × Option GoError) (hout : (createPool w fuel clusterId request).out = .ret r)
    (hr : r.1 = true) :
    r = (true, none) ∧ ∃ mon, CompletedPoll w mon (createPool w fuel clusterId request).log := by
  rcases createPool_cases w fuel clusterId request with ⟨_, hret, _⟩ |
    ⟨cluster, clusterNodes, monNodeId, monnode, pgNum, _, _, _, _, _, _, _, hlog, hout2⟩
  · have := (hret r hout).1
    rw [hr] at this
    cases this
  · rw [hout2, bind_out_ret] at hout
    obtain ⟨r2, hr2, hh⟩ := hout
    rcases (handOn_spec r2).2 with ⟨_, hh2⟩ | ⟨⟨h2none, h2true⟩, hh2⟩
    · rw [hh2] at hh
      injection hh with hh
      rw [← hh] at hr
      cases hr
    · rw [hh2] at hh
      injection hh with hh
      refine ⟨hh.symm, monnode.Hostname, ?_⟩
      rcases CreatePool_ret w fuel _ _ _ _ _ _ _ r2 hr2 with ⟨_, hcp⟩ | ⟨hf, _⟩
      · apply hcp.mono
        intro e he
        rw [hlog]
        simp [he]
      · rw [h2true] at hf
        cases hf

theorem CreatePool_true (w : Env) (fuel : Nat) (name mon clusterName : String) (pgnum : Nat)
    (replicas : Int) (quotaMaxObjects : Int) (quotaMaxBytes : Nat) (r : Bool × Option GoError)
    (hr : (CephApi.CreatePool w fuel name mon clusterName pgnum replicas quotaMaxObjects
      quotaMaxBytes).out = .ret r) (htrue : r.1 = true) :
    CompletedPoll w mon (CephApi.CreatePool w fuel name mon clusterName pgnum replicas
      quotaMaxObjects quotaMaxBytes).log := by
  rcases CreatePool_ret w fuel _ _ _ _ _ _ _ r hr with ⟨_, hcp⟩ | ⟨hf, _⟩
  · exact hcp
  · rw [htrue] at hf; cases hf

/-- A run of the task that reaches the insert: `createPool` returned
`(true, nil)` and a completed status read precedes the insert. -/
theorem asyncTask_insert (w : Env) (fuel : Nat) (cluster_id : UUID)
    (request : AddStorageRequest) (taskId : String)
    (h : (CreateStorage_asyncTask w fuel cluster_id request taskId).log.any Event.isInsert
      = true) :
    (createPool w fuel cluster_id request).out = .ret (true, none) ∧
    (∃ pre storage post mon,
      (CreateStorage_asyncTask w fuel cluster_id request taskId).log
        = pre ++ Event.Insert storage :: post ∧ CompletedPoll w mon pre) := by
  have hnoins : (createPool w fuel cluster_id request).log.any Event.isInsert = false := by
    rw [List.any_eq_false]
    intro e he
    simp [createPool_no_insert w fuel cluster_id request e he]
  unfold CreateStorage_asyncTask at h ⊢
  simp only [emit_log] at h ⊢
  cases hout : (createPool w fuel cluster_id request).out with
  | panic p =>
    rw [(bind_of_panic _ _ p hout).1] at h
    simp [Event.isInsert, hnoins] at h
  | polling =>
    rw [(bind_of_polling _ _ hout).1] at h
    simp [Event.isInsert, hnoins] at h
  | ret r =>
    rw [(bind_of_ret _ _ r hout).1] at h ⊢
    by_cases hfail : r.2.isSome = true ∨ r.1 = false
    · simp [hfail, Event.isInsert, hnoins] at h
    · simp only [hfail, if_false] at h ⊢
      have hr1 : r.1 = true := by
        cases hb : r.1
        · exact absurd (Or.inr hb) hfail
        · rfl
      obtain ⟨hreq, mon, hcp⟩ := createPool_true w fuel cluster_id request r hout hr1
      refine ⟨by rw [hreq], ?_⟩
      cases hu : w.uuid_New with
      | error err => simp [hu, Event.isInsert, hnoins] at h
      | ok storage_id =>
        simp only [emit_log]
        refine ⟨Event.UpdateStatus "Statrted ceph provider pool creation: %v" [taskId]
          :: ((createPool w fuel cluster_id request).log
            ++ [Event.UpdateStatus "Perisisting the storage entity" []]),
          newStorage storage_id cluster_id request,
          (match w.insertStorage (newStorage storage_id cluster_id request) with
            | some err => emit (Event.UpdateStatus "Error. error: %v" [err.msg])
                (emit Event.Done (ret ()))
            | none => emit (Event.UpdateStatus "Success" []) (emit Event.Done (ret ()))).log,
          mon, ?_, ?_⟩
        · simp
        · apply hcp.mono
          intro e he
          simp [he]

/-- C7. Whenever the task performs the insert, `createPool` returned
`(true, nil)` and the log before the insert holds a status read answered with
the state `complete`; and `CephApi.CreatePool` returns `true` only with such a
status read in its log. -/
theorem insert_only_after_complete (w : Env) (fuel : Nat) (cluster_id : UUID)
    (request : AddStorageRequest) (taskId : String)
    (h : (CreateStorage_asyncTask w fuel cluster_id request taskId).log.any Event.isInsert
      = true) :
    (createPool w fuel cluster_id request).out = .ret (true, none) ∧
    (∃ pre storage post mon,
      (CreateStorage_asyncTask w fuel cluster_id request taskId).log
        = pre ++ Event.Insert storage :: post ∧ CompletedPoll w mon pre) ∧
    (∀ name mon clusterName pgnum replicas quotaMaxObjects quotaMaxBytes r,
      (CephApi.CreatePool w fuel name mon clusterName pgnum replicas quotaMaxObjects
        quotaMaxBytes).out = .ret r → r.1 = true →
      CompletedPoll w mon (CephApi.CreatePool w fuel name mon clusterName pgnum replicas
        quotaMaxObjects quotaMaxBytes).log) :=
  ⟨(asyncTask_insert w fuel cluster_id request taskId h).1,
    (asyncTask_insert w fuel cluster_id request taskId h).2,
    fun name mon clusterName pgnum replicas quotaMaxObjects quotaMaxBytes r hr htrue =>
      CreatePool_true w fuel name mon clusterName pgnum replicas quotaMaxObjects quotaMaxBytes r
        hr htrue⟩

theorem bind_handOn_out (r : Run (Bool × Option GoError))
    (h : ∀ x, r.out = .ret x → x = (true, none) ∨ (x.1 = false ∧ x.2.isSome = true)) :
    (r.bind handOn).out = r.out := by
  cases hr : r.out with
  | panic p => rw [(bind_of_panic _ _ p hr).2]
  | polling => rw [(bind_of_polling _ _ hr).2]
  | ret x =>
    rw [(bind_of_ret _ _ x hr).2]
    rcases h x hr with hx | ⟨hf, hs⟩
    · subst hx; rfl
    · obtain ⟨b, o⟩ := x
      simp only at hf hs
      subst hf
      simp [handOn, hs]

/-- When `createPool` makes the backend call, its outcome is the backend's. -/
theorem createPool_hands_on (w : Env) (fuel : Nat) (clusterId : UUID)
    (request : AddStorageRequest) (name mon clusterName : String) (pgnum : Nat)
    (replicas quotaMaxObjects : Int) (quotaMaxBytes : Nat)
    (h : Event.BackendCreatePool name mon clusterName pgnum replicas quotaMaxObjects quotaMaxBytes
      ∈ (createPool w fuel clusterId request).log) :
    (createPool w fuel clusterId request).out =
      (CephApi.CreatePool w fuel name mon clusterName pgnum replicas quotaMaxObjects
        quotaMaxBytes).out := by
  rcases createPool_cases w fuel clusterId request with ⟨hst, _, _⟩ |
    ⟨cluster, clusterNodes, monNodeId, monnode, pgNum, _, _, _, _, _, _, _, hlog, hout⟩
  · have := hst _ h
    simp [Event.isStatus] at this
  · rw [hlog] at h
    simp only [List.cons_append, List.nil_append, List.mem_cons, reduceCtorEq, false_or] at h
    rcases h with heq | hmem
    · injection heq with h1 h2 h3 h4 h5 h6 h7
      subst h1 h2 h3 h4 h5 h6 h7
      rw [hout]
      apply bind_handOn_out
      intro r hcp
      rcases CreatePool_ret w fuel _ _ _ _ _ _ _ r hcp with ⟨hr, _⟩ | hf
      · exact Or.inl hr
      · exact Or.inr hf
    · rcases CreatePool_log _ _ _ _ _ _ _ _ _ _ hmem with h1 | h1 <;>
        simp [Event.isSleep, Event.isHttp] at h1

/-- C8. For every backend call whose submission is answered by a transport
error or a status other than 200 and 202: `CephApi.CreatePool` returns `false`
with an error, having slept for no status read and sent nothing after the
submission; and in every run of `createPool` that makes this call,
`createPool` ends as the backend did, and the task performs no insert and
returns with `t.Done()` as its last effect. -/
theorem rejected_submission (w : Env) (fuel : Nat) (cluster_id : UUID)
    (request : AddStorageRequest) (taskId : String) (name mon clusterName : String)
    (pgnum : Nat) (replicas quotaMaxObjects : Int) (quotaMaxBytes : Nat)
    (r : Except GoError Response)
    (hsub : submitAnswer w name mon clusterName pgnum replicas quotaMaxObjects quotaMaxBytes
      = some r)
    (hrej : SubmitRejected r) :
    ((∃ err, (CephApi.CreatePool w fuel name mon clusterName pgnum replicas quotaMaxObjects
        quotaMaxBytes).out = .ret (false, some err)) ∧
      ∀ e ∈ (CephApi.CreatePool w fuel name mon clusterName pgnum replicas quotaMaxObjects
        quotaMaxBytes).log, e.isSleep = false ∧ e.seq = some 0) ∧
    (Event.BackendCreatePool name mon clusterName pgnum replicas quotaMaxObjects quotaMaxBytes
        ∈ (createPool w fuel cluster_id request).log →
      (createPool w fuel cluster_id request).out =
        (CephApi.CreatePool w fuel name mon clusterName pgnum replicas quotaMaxObjects
          quotaMaxBytes).out ∧
      (∀ e ∈ (CreateStorage_asyncTask w fuel cluster_id request taskId).log,
        e.isInsert = false) ∧
      (CreateStorage_asyncTask w fuel cluster_id request taskId).out = .ret () ∧
      ∃ pre, (CreateStorage_asyncTask w fuel cluster_id request taskId).log
        = pre ++ [Event.Done]) := by
  have hcp := CreatePool_rejected w fuel name mon clusterName pgnum replicas quotaMaxObjects
    quotaMaxBytes r hsub hrej
  refine ⟨hcp, ?_⟩
  intro hmem
  have hout := createPool_hands_on w fuel cluster_id request _ _ _ _ _ _ _ hmem
  refine ⟨hout, ?_⟩
  obtain ⟨err, herr⟩ := hcp.1
  rw [herr] at hout
  unfold CreateStorage_asyncTask
  simp only [emit_log, emit_out]
  rw [(bind_of_ret _ _ _ hout).1, (bind_of_ret _ _ _ hout).2]
  refine ⟨?_, by simp, Event.UpdateStatus "Statrted ceph provider pool creation: %v" [taskId]
    :: ((createPool w fuel cluster_id request).log
      ++ [Event.UpdateStatus "Failed. error: %v" [fmtErr (some err)]]), by simp⟩
  intro e he
  simp only [Option.isSome_some, true_or, if_true, emit_log, ret_log, List.mem_cons,
    List.mem_append, List.mem_nil_iff, or_false] at he
  rcases he with rfl | he | rfl | rfl
  · rfl
  · exact createPool_no_insert w fuel cluster_id request e he
  · rfl
  · rfl

theorem createPool_pgnum_override_witness :
    decimalValue ((requestWithPgnum "777").Options.get "pgnum") = some 777 ∧ 777 < 2 ^ 32 ∧
    env100.osdsByCluster "c1" = .ok (osds 100 (2 ^ 40)) ∧
    (createPool env100 5 "c1" (requestWithPgnum "777")).log.filterMap Event.pgnum = [777] ∧
    (pgNumOf env100 "c1" (requestWithPgnum "777") = .ok 777 ∧
      ∀ pg ∈ (createPool env100 5 "c1" (requestWithPgnum "777")).log.filterMap Event.pgnum,
        pg = 777) :=
  ⟨by decide, by decide, rfl, by decide,
    createPool_pgnum_override env100 5 "c1" (requestWithPgnum "777") 777 (by decide)
      (by decide)⟩

/-! ## Quota validation -/

/-- With a quota parameter that its parser rejects, `createPool` stops before
the backend call: its log holds status updates only, it never ends polling,
and unless a panic ends it first it returns `false` with an error. -/
theorem createPool_malformed_quota (w : Env) (fuel : Nat) (clusterId : UUID)
    (request : AddStorageRequest)
    (hbad : badQuotaMaxObjects request ∨ badQuotaMaxBytes request) :
    (∀ e ∈ (createPool w fuel clusterId request).log, e.isStatus = true) ∧
    ((∃ err, (createPool w fuel clusterId request).out = .ret (false, some err)) ∨
      ∃ p, (createPool w fuel clusterId request).out = .panic p) := by
  rcases createPool_cases w fuel clusterId request with ⟨hst, hret, hpoll⟩ |
    ⟨_, _, _, _, _, _, _, _, _, _, hq1, hq2, _, _⟩
  · refine ⟨hst, ?_⟩
    cases hout : (createPool w fuel clusterId request).out with
    | polling => exact absurd hout hpoll
    | panic p => exact Or.inr ⟨p, rfl⟩
    | ret r =>
      left
      obtain ⟨b, o⟩ := r
      have := hret _ hout
      simp only at this
      cases o with
      | none => simp at this
      | some err => exact ⟨err, by rw [this.1]⟩
  · rcases hbad with h | h
    · exact absurd h hq1
    · exact absurd h hq2

/-- C5. With quota enabled, `quota_max_objects = "1000"` and
`quota_max_bytes = "abc"`, on the cluster of 60 OSDs: with replica count 3
`createPool` returns `false` with the quota error and issues no backend call;
with replica count 0 the division by zero in `derive_pgnum` ends the run in a
panic before the quota parameters are looked at, so `createPool` does not
return a failure. -/
theorem createPool_quota_behind_panic :
    badQuotaMaxBytes (requestWithQuota "1000" "abc" 0) ∧
    (createPool env60 5 "c1" (requestWithQuota "1000" "abc" 0)).out = .panic .divideByZero ∧
    (createPool env60 5 "c1" (requestWithQuota "1000" "abc" 0)).log.any
      Event.isBackendCreatePool = false ∧
    (createPool env60 5 "c1" (requestWithQuota "1000" "abc" 3)).out =
      .ret (false, some (errors_New "Error parsing quota config value for quota_max_bytes")) ∧
    (createPool env60 5 "c1" (requestWithQuota "1000" "abc" 3)).log.any
      Event.isBackendCreatePool = false :=
  ⟨by decide, by decide, by decide, by decide, by decide⟩

/-! ## The example clusters -/

theorem monitor_selection_witness :
    env60.clusterById "c1" = .ok ⟨"c1", "ceph"⟩ ∧
    env60.nodesByCluster "c1" = .ok [mon1, osdHost, mon2, mon3] ∧
    RandomInRange env60.RandomNum ∧
    pickMon env60 (collectMons [mon1, osdHost, mon2, mon3]) = .ok "n3" ∧
    pickMon env100 (collectMons [osdHost, mon1]) = .ok "n1" ∧
    (∃ node ∈ [mon1, osdHost, mon2, mon3], node.Options.get "mon" = "Y" ∧
      pickMon env60 (collectMons [mon1, osdHost, mon2, mon3]) = .ok node.NodeId) :=
  ⟨rfl, rfl, fun _ _ h => ⟨h, le_refl _⟩, by decide, by decide,
    (monitor_selection env60 5 "c1" demoRequest ⟨"c1", "ceph"⟩ [mon1, osdHost, mon2, mon3]
      rfl rfl).2.2.1 (fun _ _ h => ⟨h, le_refl _⟩)
      ⟨mon1, List.mem_cons_self _ _, by decide⟩⟩

theorem insert_only_after_complete_witness :
    (CreateStorage_asyncTask env60 5 "c1" demoRequest "t1").log.any Event.isInsert = true ∧
    (CreateStorage_asyncTask env60 2 "c1" demoRequest "t1").log.any Event.isInsert = false ∧
    ((createPool env60 5 "c1" demoRequest).out = .ret (true, none) ∧
    (∃ pre storage post mon,
      (CreateStorage_asyncTask env60 5 "c1" demoRequest "t1").log
        = pre ++ Event.Insert storage :: post ∧ CompletedPoll env60 mon pre) ∧
    (∀ name mon clusterName pgnum replicas quotaMaxObjects quotaMaxBytes r,
      (CephApi.CreatePool env60 5 name mon clusterName pgnum replicas quotaMaxObjects
        quotaMaxBytes).out = .ret r → r.1 = true →
      CompletedPoll env60 mon (CephApi.CreatePool env60 5 name mon clusterName pgnum replicas
        quotaMaxObjects quotaMaxBytes).log)) :=
  ⟨by decide, by decide,
    insert_only_after_complete env60 5 "c1" demoRequest "t1" (by decide)⟩

theorem rejected_submission_witness :
    submitAnswer env500AtMon3 "pool1" "mon3.example" "ceph" 1 3 0 0
      = some (.ok ⟨500, .ok "internal error"⟩) ∧
    SubmitRejected (.ok ⟨500, .ok "internal error"⟩) ∧
    (createPool env500AtMon3 5 "c1" demoRequest).log.get? 4
      = some (Event.BackendCreatePool "pool1" "mon3.example" "ceph" 1 3 0 0) ∧
    ((∃ err, (CephApi.CreatePool env500AtMon3 5 "pool1" "mon3.example" "ceph" 1 3 0 0).out
          = .ret (false, some err)) ∧
      ∀ e ∈ (CephApi.CreatePool env500AtMon3 5 "pool1" "mon3.example" "ceph" 1 3 0 0).log,
        e.isSleep = false ∧ e.seq = some 0) ∧
    ((createPool env500AtMon3 5 "c1" demoRequest).out =
        (CephApi.CreatePool env500AtMon3 5 "pool1" "mon3.example" "ceph" 1 3 0 0).out ∧
      (∀ e ∈ (CreateStorage_asyncTask env500AtMon3 5 "c1" demoRequest "t1").log,
        e.isInsert = false) ∧
      (CreateStorage_asyncTask env500AtMon3 5 "c1" demoRequest "t1").out = .ret () ∧
      ∃ pre, (CreateStorage_asyncTask env500AtMon3 5 "c1" demoRequest "t1").log
        = pre ++ [Event.Done]) :=
  ⟨rfl, ⟨by decide, by decide⟩, rfl,
    (rejected_submission env500AtMon3 5 "c1" demoRequest "t1" "pool1" "mon3.example" "ceph"
      1 3 0 0 (.ok ⟨500, .ok "internal error"⟩) rfl ⟨by decide, by decide⟩).1,
    (rejected_submission env500AtMon3 5 "c1" demoRequest "t1" "pool1" "mon3.example" "ceph"
      1 3 0 0 (.ok ⟨500, .ok "internal error"⟩) rfl ⟨by decide, by decide⟩).2
      (List.get?_mem (n := 4) rfl)⟩

end Bigfin
